import Mathlib

/-!
Verification of the PortfolioS backend (Node/Express + MySQL single-user
portfolio tracker) against its natural-language specification.

Shallow embedding conventions:
* DECIMAL(15,4) columns are exact in MySQL; they are modelled as `ℚ`.
* DATE columns and Joi date values are modelled as `Int` day numbers;
  `CURDATE()` / Joi `'now'` become an explicit `today`/`now` parameter.
  `DATEDIFF(a, b)` is `a - b`, `DATE_ADD(d, INTERVAL n DAY)` is `d + n`.
* Nullable columns are `Option` fields; SQL `COALESCE` is `Option.getD`.
* Each route handler becomes a pure function from the request data and
  the database state to a response record carrying the HTTP status, the
  message and the post-state of the database.
-/

namespace PortfolioS

/-- A row of the `stocks` table (backend/routes/stocks.js, database/schema.sql). -/
structure Stock where
  id : Nat
  symbol : String
  companyName : String
  quantity : Rat
  purchasePrice : Rat
  currentPrice : Option Rat
  purchaseDate : Int
  sector : Option String
  notes : Option String
  updatedAt : Int
  deriving DecidableEq

/-- A row of the `bonds` table. -/
structure Bond where
  id : Nat
  issuer : String
  bondType : String
  faceValue : Rat
  couponRate : Rat
  maturityDate : Int
  purchasePrice : Rat
  currentPrice : Option Rat
  purchaseDate : Int
  rating : Option String
  notes : Option String
  updatedAt : Int
  deriving DecidableEq

/-- A row of the `cashflow` table. -/
structure CashflowEntry where
  id : Nat
  type : String
  category : String
  amount : Rat
  description : String
  date : Int
  isRecurring : Bool
  recurringFrequency : Option String
  tags : List String
  updatedAt : Int
  deriving DecidableEq

/-- The database state for the single user (user_id = 1 rows of each table). -/
structure DB where
  stocks : List Stock
  bonds : List Bond
  cashflows : List CashflowEntry
  deriving DecidableEq

/-- `COALESCE(current_price, purchase_price)` for a stock. -/
def Stock.effPrice (s : Stock) : Rat := s.currentPrice.getD s.purchasePrice

/-- `COALESCE(current_price, purchase_price)` for a bond. -/
def Bond.effPrice (b : Bond) : Rat := b.currentPrice.getD b.purchasePrice

/-! ## Summary endpoints -/

/-- `SUM(quantity * purchase_price)` over the user's stocks. -/
def stocksInvested (db : DB) : Rat :=
  (db.stocks.map (fun s => s.quantity * s.purchasePrice)).sum

/-- `SUM(quantity * COALESCE(current_price, purchase_price))` over the user's stocks. -/
def stocksCurrentValue (db : DB) : Rat :=
  (db.stocks.map (fun s => s.quantity * s.effPrice)).sum

/-- `SUM(quantity * (COALESCE(current_price, purchase_price) - purchase_price))`. -/
def stocksGainLoss (db : DB) : Rat :=
  (db.stocks.map (fun s => s.quantity * (s.effPrice - s.purchasePrice))).sum

/-- `SUM(purchase_price)` over the user's bonds. -/
def bondsInvested (db : DB) : Rat :=
  (db.bonds.map (fun b => b.purchasePrice)).sum

/-- `SUM(COALESCE(current_price, purchase_price))` over the user's bonds. -/
def bondsCurrentValue (db : DB) : Rat :=
  (db.bonds.map Bond.effPrice).sum

/-- `SUM(COALESCE(current_price, purchase_price) - purchase_price)` over the bonds. -/
def bondsGainLoss (db : DB) : Rat :=
  (db.bonds.map (fun b => b.effPrice - b.purchasePrice)).sum

/-- `SUM(face_value * coupon_rate / 100)` over the user's bonds. -/
def bondsAnnualIncome (db : DB) : Rat :=
  (db.bonds.map (fun b => b.faceValue * b.couponRate / 100)).sum

/-- Response of `GET /api/stocks/summary`. -/
structure StockSummary where
  totalStocks : Nat
  totalInvested : Rat
  currentValue : Rat
  totalGainLoss : Rat
  percentageReturn : Rat
  deriving DecidableEq

/-- `GET /api/stocks/summary` (stocks.js lines 218-245).  The SQL sums feed the
JSON body; `percentageReturn` is `total_invested > 0 ? gl / inv * 100 : 0`. -/
def stockSummary (db : DB) : StockSummary :=
  { totalStocks := db.stocks.length
    totalInvested := stocksInvested db
    currentValue := stocksCurrentValue db
    totalGainLoss := stocksGainLoss db
    percentageReturn :=
      if 0 < stocksInvested db then stocksGainLoss db / stocksInvested db * 100 else 0 }

/-- Response of `GET /api/bonds/summary`. -/
structure BondSummary where
  totalBonds : Nat
  totalInvested : Rat
  currentValue : Rat
  totalGainLoss : Rat
  totalAnnualIncome : Rat
  averageCouponRate : Rat
  percentageReturn : Rat
  deriving DecidableEq

/-- `GET /api/bonds/summary` (bonds router lines 327-358).  `AVG(coupon_rate)`
is the sum divided by the row count (0 for an empty table, matching the
`parseFloat(x || 0)` treatment of SQL NULL). -/
def bondSummary (db : DB) : BondSummary :=
  { totalBonds := db.bonds.length
    totalInvested := bondsInvested db
    currentValue := bondsCurrentValue db
    totalGainLoss := bondsGainLoss db
    totalAnnualIncome := bondsAnnualIncome db
    averageCouponRate := (db.bonds.map (fun b => b.couponRate)).sum / (db.bonds.length : Rat)
    percentageReturn :=
      if 0 < bondsInvested db then bondsGainLoss db / bondsInvested db * 100 else 0 }

/-- Response of `GET /api/portfolio/overview` (the `overview`, `stocks` and
`bonds` blocks that the claims mention). -/
structure Overview where
  totalInvested : Rat
  totalCurrentValue : Rat
  totalGainLoss : Rat
  totalReturnPercentage : Rat
  totalAssets : Nat
  stocksPercentage : Rat
  bondsPercentage : Rat
  deriving DecidableEq

/-- `GET /api/portfolio/overview` (portfolio.js lines 12-92). -/
def portfolioOverview (db : DB) : Overview :=
  let ti := stocksInvested db + bondsInvested db
  let tc := stocksCurrentValue db + bondsCurrentValue db
  let tg := stocksGainLoss db + bondsGainLoss db
  { totalInvested := ti
    totalCurrentValue := tc
    totalGainLoss := tg
    totalReturnPercentage := if 0 < ti then tg / ti * 100 else 0
    totalAssets := db.stocks.length + db.bonds.length
    stocksPercentage := if 0 < tc then stocksCurrentValue db / tc * 100 else 0
    bondsPercentage := if 0 < tc then bondsCurrentValue db / tc * 100 else 0 }

/-! ## Basic sum identities -/

lemma stocksGainLoss_eq (db : DB) :
    stocksGainLoss db = stocksCurrentValue db - stocksInvested db := by
  unfold stocksGainLoss stocksCurrentValue stocksInvested
  induction db.stocks with
  | nil => simp
  | cons s t ih => simp only [List.map_cons, List.sum_cons, ih]; ring

lemma bondsGainLoss_eq (db : DB) :
    bondsGainLoss db = bondsCurrentValue db - bondsInvested db := by
  unfold bondsGainLoss bondsCurrentValue bondsInvested
  induction db.bonds with
  | nil => simp
  | cons b t ih =>
      simp only [List.map_cons, List.sum_cons, Bond.effPrice] at ih ⊢
      rw [ih]; ring

lemma ratio_cases {inv g : Rat} (h : 0 ≤ inv) :
    (if 0 < inv then g / inv * 100 else 0) = g / inv * 100 := by
  rcases lt_or_eq_of_le h with h1 | h1
  · rw [if_pos h1]
  · rw [if_neg (by rw [← h1]; exact lt_irrefl 0), ← h1, div_zero, zero_mul]

/-- C1: in the stock summary, the bond summary and the portfolio overview, the
total gain/loss equals the sum of current values minus the sum of invested
amounts, and the percentage return is gain/loss divided by invested times 100
(`ℚ` division by zero being 0, this also gives 0 when invested is 0, which is
stated explicitly as well).  The nonnegativity hypotheses reflect the schema
invariant that quantities and purchase prices are positive. -/
theorem summary_gain_loss_and_return (db : DB)
    (hs : 0 ≤ stocksInvested db) (hb : 0 ≤ bondsInvested db) :
    (stockSummary db).totalGainLoss
        = (stockSummary db).currentValue - (stockSummary db).totalInvested ∧
    (stockSummary db).percentageReturn
        = (stockSummary db).totalGainLoss / (stockSummary db).totalInvested * 100 ∧
    ((stockSummary db).totalInvested = 0 → (stockSummary db).percentageReturn = 0) ∧
    (bondSummary db).totalGainLoss
        = (bondSummary db).currentValue - (bondSummary db).totalInvested ∧
    (bondSummary db).percentageReturn
        = (bondSummary db).totalGainLoss / (bondSummary db).totalInvested * 100 ∧
    ((bondSummary db).totalInvested = 0 → (bondSummary db).percentageReturn = 0) ∧
    (portfolioOverview db).totalGainLoss
        = (portfolioOverview db).totalCurrentValue - (portfolioOverview db).totalInvested ∧
    (portfolioOverview db).totalReturnPercentage
        = (portfolioOverview db).totalGainLoss / (portfolioOverview db).totalInvested * 100 ∧
    ((portfolioOverview db).totalInvested = 0 →
        (portfolioOverview db).totalReturnPercentage = 0) := by
  refine ⟨stocksGainLoss_eq db, ratio_cases hs, ?_, bondsGainLoss_eq db, ratio_cases hb, ?_,
    ?_, ratio_cases (add_nonneg hs hb), ?_⟩
  · intro h0
    simp only [stockSummary] at h0 ⊢
    rw [h0, div_zero, zero_mul, if_neg (lt_irrefl 0)]
  · intro h0
    simp only [bondSummary] at h0 ⊢
    rw [h0, div_zero, zero_mul, if_neg (lt_irrefl 0)]
  · show stocksGainLoss db + bondsGainLoss db
        = (stocksCurrentValue db + bondsCurrentValue db)
          - (stocksInvested db + bondsInvested db)
    rw [stocksGainLoss_eq, bondsGainLoss_eq]; ring
  · intro h0
    show (if 0 < stocksInvested db + bondsInvested db then _ else 0) = 0
    rw [if_neg]
    rw [show stocksInvested db + bondsInvested db = 0 from h0]
    exact lt_irrefl 0

/-- Witness for `summary_gain_loss_and_return` at a concrete two-stock,
one-bond database. -/
theorem summary_gain_loss_and_return_witness :
    (0 : Rat) ≤ stocksInvested
        ⟨[⟨1, "AAPL", "Apple", 2, 10, some 15, 0, none, none, 0⟩,
          ⟨2, "MSFT", "Microsoft", 3, 20, none, 0, some "Tech", none, 0⟩], [], []⟩ ∧
    (stockSummary
        ⟨[⟨1, "AAPL", "Apple", 2, 10, some 15, 0, none, none, 0⟩,
          ⟨2, "MSFT", "Microsoft", 3, 20, none, 0, some "Tech", none, 0⟩], [], []⟩).totalGainLoss
      = (stockSummary
        ⟨[⟨1, "AAPL", "Apple", 2, 10, some 15, 0, none, none, 0⟩,
          ⟨2, "MSFT", "Microsoft", 3, 20, none, 0, some "Tech", none, 0⟩], [], []⟩).currentValue
        - (stockSummary
        ⟨[⟨1, "AAPL", "Apple", 2, 10, some 15, 0, none, none, 0⟩,
          ⟨2, "MSFT", "Microsoft", 3, 20, none, 0, some "Tech", none, 0⟩], [], []⟩).totalInvested :=
  ⟨by norm_num [stocksInvested],
   (summary_gain_loss_and_return
      ⟨[⟨1, "AAPL", "Apple", 2, 10, some 15, 0, none, none, 0⟩,
        ⟨2, "MSFT", "Microsoft", 3, 20, none, 0, some "Tech", none, 0⟩], [], []⟩
      (by norm_num [stocksInvested]) (by norm_num [bondsInvested])).1⟩

/-! ## Allocation endpoint -/

/-- One entry of the `stockSectors` / `bondTypes` arrays of
`GET /api/portfolio/allocation`. -/
structure AllocationEntry where
  label : String
  value : Rat
  percentage : Rat
  count : Nat
  deriving DecidableEq

/-- Response of `GET /api/portfolio/allocation`. -/
structure Allocation where
  totalValue : Rat
  stocksValue : Rat
  bondsValue : Rat
  stocksPercentage : Rat
  bondsPercentage : Rat
  stockSectors : List AllocationEntry
  bondTypes : List AllocationEntry
  deriving DecidableEq

/-- `SUM(quantity * COALESCE(current_price, purchase_price))` over the stocks of
one `GROUP BY sector` group (the group key is the raw nullable column; the
label shown is `COALESCE(sector, 'Unknown')`). -/
def sectorValue (db : DB) (k : Option String) : Rat :=
  ((db.stocks.filter (fun s => s.sector = k)).map (fun s => s.quantity * s.effPrice)).sum

/-- `SUM(COALESCE(current_price, purchase_price))` over one `GROUP BY bond_type`
group. -/
def bondTypeValue (db : DB) (k : String) : Rat :=
  ((db.bonds.filter (fun b => b.bondType = k)).map Bond.effPrice).sum

/-- `GET /api/portfolio/allocation` (portfolio.js lines 193-261).  The `ORDER BY
value DESC` of the two grouping queries only affects presentation order and is
not modelled; groups are listed in first-occurrence order. -/
def allocation (db : DB) : Allocation :=
  { totalValue := stocksCurrentValue db + bondsCurrentValue db
    stocksValue := stocksCurrentValue db
    bondsValue := bondsCurrentValue db
    stocksPercentage :=
      if 0 < stocksCurrentValue db + bondsCurrentValue db then
        stocksCurrentValue db / (stocksCurrentValue db + bondsCurrentValue db) * 100
      else 0
    bondsPercentage :=
      if 0 < stocksCurrentValue db + bondsCurrentValue db then
        bondsCurrentValue db / (stocksCurrentValue db + bondsCurrentValue db) * 100
      else 0
    stockSectors :=
      (db.stocks.map Stock.sector).dedup.map (fun k =>
        { label := k.getD "Unknown"
          value := sectorValue db k
          percentage :=
            if 0 < stocksCurrentValue db then
              sectorValue db k / stocksCurrentValue db * 100
            else 0
          count := (db.stocks.filter (fun s => s.sector = k)).length })
    bondTypes :=
      (db.bonds.map Bond.bondType).dedup.map (fun k =>
        { label := k
          value := bondTypeValue db k
          percentage :=
            if 0 < bondsCurrentValue db then
              bondTypeValue db k / bondsCurrentValue db * 100
            else 0
          count := (db.bonds.filter (fun b => b.bondType = k)).length }) }

/-- C2: each asset class percentage is that class's current value over the total
portfolio value times 100 (which is 0 when the total is 0, stated explicitly as
well); when the total is positive the two percentages sum to 100; and each
sector (resp. bond-type) group's percentage is its value over the stocks
(resp. bonds) total times 100. -/
theorem allocation_percentages (db : DB)
    (hs : 0 ≤ stocksCurrentValue db) (hb : 0 ≤ bondsCurrentValue db) :
    (allocation db).stocksPercentage
        = (allocation db).stocksValue / (allocation db).totalValue * 100 ∧
    (allocation db).bondsPercentage
        = (allocation db).bondsValue / (allocation db).totalValue * 100 ∧
    ((allocation db).totalValue = 0 →
        (allocation db).stocksPercentage = 0 ∧ (allocation db).bondsPercentage = 0) ∧
    (0 < (allocation db).totalValue →
        (allocation db).stocksPercentage + (allocation db).bondsPercentage = 100) ∧
    (∀ e ∈ (allocation db).stockSectors,
        e.percentage = e.value / (allocation db).stocksValue * 100) ∧
    (∀ e ∈ (allocation db).bondTypes,
        e.percentage = e.value / (allocation db).bondsValue * 100) := by
  refine ⟨ratio_cases (add_nonneg hs hb), ratio_cases (add_nonneg hs hb), ?_, ?_, ?_, ?_⟩
  · intro h0
    show (if 0 < stocksCurrentValue db + bondsCurrentValue db then _ else 0) = 0 ∧
      (if 0 < stocksCurrentValue db + bondsCurrentValue db then _ else 0) = 0
    have h0s : stocksCurrentValue db + bondsCurrentValue db = 0 := h0
    rw [h0s]
    exact ⟨if_neg (lt_irrefl 0), if_neg (lt_irrefl 0)⟩
  · intro hpos
    have hpos2 : 0 < stocksCurrentValue db + bondsCurrentValue db := hpos
    show (if 0 < stocksCurrentValue db + bondsCurrentValue db then _ else 0) +
      (if 0 < stocksCurrentValue db + bondsCurrentValue db then _ else 0) = 100
    rw [if_pos hpos2, if_pos hpos2]
    have hne : stocksCurrentValue db + bondsCurrentValue db ≠ 0 := ne_of_gt hpos2
    field_simp
    ring
  · intro e he
    simp only [allocation, List.mem_map] at he
    obtain ⟨k, _, rfl⟩ := he
    exact ratio_cases hs
  · intro e he
    simp only [allocation, List.mem_map] at he
    obtain ⟨k, _, rfl⟩ := he
    exact ratio_cases hb

/-- Witness for `allocation_percentages` at a concrete state: one stock of
value 60 and one bond of value 40 give percentages summing to 100. -/
theorem allocation_percentages_witness :
    (0 : Rat) ≤ stocksCurrentValue
        ⟨[⟨1, "A", "A Co", 4, 10, some 15, 0, some "Tech", none, 0⟩],
         [⟨1, "T", "treasury", 100, 5, 400, 40, none, 0, none, none, 0⟩], []⟩ ∧
    (0 : Rat) < (allocation
        ⟨[⟨1, "A", "A Co", 4, 10, some 15, 0, some "Tech", none, 0⟩],
         [⟨1, "T", "treasury", 100, 5, 400, 40, none, 0, none, none, 0⟩], []⟩).totalValue ∧
    (allocation
        ⟨[⟨1, "A", "A Co", 4, 10, some 15, 0, some "Tech", none, 0⟩],
         [⟨1, "T", "treasury", 100, 5, 400, 40, none, 0, none, none, 0⟩], []⟩).stocksPercentage
      + (allocation
        ⟨[⟨1, "A", "A Co", 4, 10, some 15, 0, some "Tech", none, 0⟩],
         [⟨1, "T", "treasury", 100, 5, 400, 40, none, 0, none, none, 0⟩], []⟩).bondsPercentage
      = 100 :=
  ⟨by norm_num [stocksCurrentValue, Stock.effPrice],
   by norm_num [allocation, stocksCurrentValue, bondsCurrentValue, Stock.effPrice,
     Bond.effPrice],
   ((allocation_percentages
      ⟨[⟨1, "A", "A Co", 4, 10, some 15, 0, some "Tech", none, 0⟩],
       [⟨1, "T", "treasury", 100, 5, 400, 40, none, 0, none, none, 0⟩], []⟩
      (by norm_num [stocksCurrentValue, Stock.effPrice])
      (by norm_num [bondsCurrentValue, Bond.effPrice])).2.2.2.1
    (by norm_num [allocation, stocksCurrentValue, bondsCurrentValue, Stock.effPrice,
      Bond.effPrice]))⟩

/-! ## Alerts and upcoming maturities -/

/-- `((current_price - purchase_price) / purchase_price * 100)`. -/
def pctChange (p c : Rat) : Rat := (c - p) / p * 100

/-- An element of the `alerts` array of `GET /api/portfolio/alerts`, keeping the
fields the handler puts into `data` that identify the source row. -/
inductive Alert where
  | bondMaturity (severity : String) (issuer : String) (maturityDate : Int)
      (faceValue : Rat) (daysToMaturity : Int)
  | stockMovement (kind : String) (severity : String) (symbol : String)
      (percentageChange : Rat)
  deriving DecidableEq

/-- The `severity` field of an alert. -/
def Alert.severity : Alert → String
  | .bondMaturity sev _ _ _ _ => sev
  | .stockMovement _ sev _ _ => sev

/-- The bond-maturity alert the handler pushes for one bond in the 30-day
window: severity is `high` when `days_to_maturity <= 7`, else `medium`. -/
def bondAlert (today : Int) (b : Bond) : Alert :=
  .bondMaturity (if b.maturityDate - today ≤ 7 then "high" else "medium")
    b.issuer b.maturityDate b.faceValue (b.maturityDate - today)

/-- The stock-movement alert the handler pushes for one stock with a recorded
current price moving at least 20%: kind `significant_gain` when the change is
positive, severity `high` when `|change| >= 50`. -/
def stockAlertOf (s : Stock) (c : Rat) : Alert :=
  .stockMovement
    (if 0 < pctChange s.purchasePrice c then "significant_gain" else "significant_loss")
    (if 50 ≤ |pctChange s.purchasePrice c| then "high" else "medium")
    s.symbol (pctChange s.purchasePrice c)

/-- `GET /api/portfolio/alerts` (portfolio.js lines 268-328): bond alerts for
maturities in `BETWEEN CURDATE() AND DATE_ADD(CURDATE(), INTERVAL 30 DAY)`,
then stock alerts for rows with `current_price IS NOT NULL` and
`ABS((current_price - purchase_price) / purchase_price * 100) >= 20`.  The
`ORDER BY` clauses of the two queries only order alerts within each group and
are not modelled. -/
def portfolioAlerts (db : DB) (today : Int) : List Alert :=
  ((db.bonds.filter (fun b => today ≤ b.maturityDate ∧ b.maturityDate ≤ today + 30)).map
      (bondAlert today))
    ++ db.stocks.filterMap (fun s =>
        s.currentPrice.bind (fun c =>
          if 20 ≤ |pctChange s.purchasePrice c| then some (stockAlertOf s c) else none))

/-- Ordering of bonds by maturity date (`ORDER BY maturity_date ASC`). -/
def bondLe (a b : Bond) : Prop := a.maturityDate ≤ b.maturityDate

instance : DecidableRel bondLe := fun a b =>
  inferInstanceAs (Decidable (a.maturityDate ≤ b.maturityDate))

instance : IsTotal Bond bondLe := ⟨fun a b => Int.le_total a.maturityDate b.maturityDate⟩

instance : IsTrans Bond bondLe := ⟨fun _ _ _ h h2 => le_trans h h2⟩

/-- `GET /api/bonds/upcoming-maturities` (bonds router lines 365-391): bonds
with `maturity_date BETWEEN CURDATE() AND DATE_ADD(CURDATE(), INTERVAL 90 DAY)`
ordered by maturity date ascending. -/
def upcomingMaturities (db : DB) (today : Int) : List Bond :=
  List.insertionSort bondLe
    (db.bonds.filter (fun b => today ≤ b.maturityDate ∧ b.maturityDate ≤ today + 90))

/-- C3: the alerts endpoint emits a bond-maturity alert exactly for the bonds
maturing between today and 30 days out, with severity `high` iff maturity is
within 7 days, and a stock-movement alert exactly for the stocks with a
recorded current price whose absolute percentage change is at least 20, with
severity `high` iff it is at least 50; and the upcoming-maturities endpoint
returns exactly the bonds maturing between today and 90 days out, ordered by
maturity date ascending. -/
theorem alerts_and_upcoming_maturities (db : DB) (today : Int) :
    (∀ b ∈ db.bonds,
        (bondAlert today b ∈ portfolioAlerts db today ↔
          today ≤ b.maturityDate ∧ b.maturityDate ≤ today + 30)) ∧
    (∀ b : Bond, (bondAlert today b).severity = "high" ↔ b.maturityDate - today ≤ 7) ∧
    (∀ s ∈ db.stocks, ∀ c : Rat, s.currentPrice = some c →
        (stockAlertOf s c ∈ portfolioAlerts db today ↔
          20 ≤ |pctChange s.purchasePrice c|)) ∧
    (∀ (s : Stock) (c : Rat),
        (stockAlertOf s c).severity = "high" ↔ 50 ≤ |pctChange s.purchasePrice c|) ∧
    (∀ b : Bond, b ∈ upcomingMaturities db today ↔
        b ∈ db.bonds ∧ today ≤ b.maturityDate ∧ b.maturityDate ≤ today + 90) ∧
    List.Sorted bondLe (upcomingMaturities db today) := by
  refine ⟨?_, ?_, ?_, ?_, ?_, ?_⟩
  · intro b hb
    constructor
    · intro hmem
      rcases List.mem_append.mp hmem with h | h
      · obtain ⟨b2, hb2, he⟩ := List.mem_map.mp h
        have hw := (List.mem_filter.mp hb2).2
        simp only [decide_eq_true_eq] at hw
        simp only [bondAlert, Alert.bondMaturity.injEq] at he
        obtain ⟨-, -, hmd, -, -⟩ := he
        rw [hmd] at hw
        exact hw
      · exfalso
        obtain ⟨s, _, he⟩ := List.mem_filterMap.mp h
        cases hc : s.currentPrice with
        | none => rw [hc] at he; simp at he
        | some c =>
            rw [hc] at he
            simp only [Option.some_bind] at he
            split_ifs at he with h20
            · rw [Option.some.injEq, stockAlertOf, bondAlert] at he
              exact Alert.noConfusion he
    · intro hw
      refine List.mem_append.mpr (Or.inl (List.mem_map.mpr ⟨b, ?_, rfl⟩))
      exact List.mem_filter.mpr ⟨hb, by simpa using hw⟩
  · intro b
    by_cases h : b.maturityDate - today ≤ 7
    · simp [bondAlert, Alert.severity, h]
    · simp [bondAlert, Alert.severity, h]
  · intro s hs c hc
    constructor
    · intro hmem
      rcases List.mem_append.mp hmem with h | h
      · exfalso
        obtain ⟨b2, _, he⟩ := List.mem_map.mp h
        rw [bondAlert, stockAlertOf] at he
        exact Alert.noConfusion he
      · obtain ⟨s2, _, he⟩ := List.mem_filterMap.mp h
        cases hc2 : s2.currentPrice with
        | none => rw [hc2] at he; simp at he
        | some c2 =>
            rw [hc2] at he
            simp only [Option.some_bind] at he
            split_ifs at he with h20
            · simp only [Option.some.injEq, stockAlertOf, Alert.stockMovement.injEq] at he
              obtain ⟨-, -, -, hpc⟩ := he
              rw [hpc] at h20
              exact h20
    · intro h20
      refine List.mem_append.mpr (Or.inr (List.mem_filterMap.mpr ⟨s, hs, ?_⟩))
      rw [hc]
      simp only [Option.some_bind]
      rw [if_pos h20]
  · intro s c
    by_cases h : 50 ≤ |pctChange s.purchasePrice c|
    · simp [stockAlertOf, Alert.severity, h]
    · simp [stockAlertOf, Alert.severity, h]
  · intro b
    rw [upcomingMaturities, List.mem_insertionSort, List.mem_filter]
    simp [and_assoc]
  · exact List.sorted_insertionSort bondLe _

/-- Witness for `alerts_and_upcoming_maturities` at a concrete state: a bond
maturing in 5 days produces an alert, and that alert's severity is high. -/
theorem alerts_and_upcoming_maturities_witness :
    (⟨7, "ACME", "corporate", 1000, 5, 105, 90, none, 0, none, none, 0⟩ : Bond)
        ∈ (⟨[], [⟨7, "ACME", "corporate", 1000, 5, 105, 90, none, 0, none, none, 0⟩],
            []⟩ : DB).bonds ∧
    (bondAlert 100 ⟨7, "ACME", "corporate", 1000, 5, 105, 90, none, 0, none, none, 0⟩
        ∈ portfolioAlerts
          ⟨[], [⟨7, "ACME", "corporate", 1000, 5, 105, 90, none, 0, none, none, 0⟩], []⟩
          100 ↔
      (100 : Int) ≤ 105 ∧ (105 : Int) ≤ 100 + 30) :=
  ⟨by decide,
   (alerts_and_upcoming_maturities
      ⟨[], [⟨7, "ACME", "corporate", 1000, 5, 105, 90, none, 0, none, none, 0⟩], []⟩
      100).1
     ⟨7, "ACME", "corporate", 1000, 5, 105, 90, none, 0, none, none, 0⟩ (by decide)⟩

/-! ## CRUD handlers

Request bodies are records of the keys the Joi schemas admit; a key absent
from the JSON body is `none`.  Joi validation is modelled as a function to
`Option String`: `some m` is the first validation error message
(`error.details[0].message`), `none` means the body passed.  Joi `uppercase()`
runs in convert mode and never rejects, and the handlers destructure the raw
`req.body`, so it does not appear. -/

/-- Body of `POST /api/stocks` (`stockSchema`). -/
structure StockCreateBody where
  symbol : String
  companyName : String
  quantity : Rat
  purchasePrice : Rat
  purchaseDate : Int
  sector : Option String
  notes : Option String
  deriving DecidableEq

/-- `stockSchema.validate` (stocks.js lines 9-17). -/
def validateStockCreate (b : StockCreateBody) : Option String :=
  if b.symbol.length < 1 ∨ 10 < b.symbol.length then some "symbol must be 1 to 10 characters"
  else if b.companyName.length < 1 ∨ 255 < b.companyName.length then
    some "companyName must be 1 to 255 characters"
  else if b.quantity ≤ 0 then some "quantity must be a positive number"
  else if b.purchasePrice ≤ 0 then some "purchasePrice must be a positive number"
  else if b.sector.any (fun v => 100 < v.length) then some "sector too long"
  else if b.notes.any (fun v => 1000 < v.length) then some "notes too long"
  else none

/-- Body of `PUT /api/stocks/:id` (`updateStockSchema`): every key optional. -/
structure StockUpdateBody where
  quantity : Option Rat
  purchasePrice : Option Rat
  currentPrice : Option Rat
  sector : Option String
  notes : Option String
  deriving DecidableEq

/-- `updateStockSchema.validate` (stocks.js lines 19-25). -/
def validateStockUpdate (b : StockUpdateBody) : Option String :=
  if b.quantity.any (fun q => q ≤ 0) then some "quantity must be a positive number"
  else if b.purchasePrice.any (fun p => p ≤ 0) then
    some "purchasePrice must be a positive number"
  else if b.currentPrice.any (fun c => c ≤ 0) then
    some "currentPrice must be a positive number"
  else if b.sector.any (fun v => 100 < v.length) then some "sector too long"
  else if b.notes.any (fun v => 1000 < v.length) then some "notes too long"
  else none

/-- True when no key is present: the handler then builds
`UPDATE stocks SET , updated_at = CURRENT_TIMESTAMP ...`, which MySQL rejects
as a syntax error, caught as a 500. -/
def StockUpdateBody.isEmpty (b : StockUpdateBody) : Bool :=
  b.quantity.isNone && b.purchasePrice.isNone && b.currentPrice.isNone &&
    b.sector.isNone && b.notes.isNone

/-- The SET clause of the stock UPDATE: each present key overwrites its column,
plus `updated_at = CURRENT_TIMESTAMP`. -/
def applyStockUpdate (b : StockUpdateBody) (now : Int) (s : Stock) : Stock :=
  { s with
    quantity := b.quantity.getD s.quantity
    purchasePrice := b.purchasePrice.getD s.purchasePrice
    currentPrice := match b.currentPrice with | some c => some c | none => s.currentPrice
    sector := match b.sector with | some v => some v | none => s.sector
    notes := match b.notes with | some v => some v | none => s.notes
    updatedAt := now }

/-- Result of a POST handler: HTTP status, message, post-state, and the row
returned on 201. -/
structure PostResult (α : Type) where
  status : Nat
  message : String
  db : DB
  row : Option α
  deriving DecidableEq

/-- Result of a PUT or DELETE handler. -/
structure UpdateResult where
  status : Nat
  message : String
  db : DB
  deriving DecidableEq

/-- `POST /api/stocks` (stocks.js lines 76-128): validate, reject a duplicate
symbol, then INSERT with `current_price` set to the purchase price.  `newId` is
the AUTO_INCREMENT id MySQL assigns, `now` the row timestamp. -/
def postStock (db : DB) (b : StockCreateBody) (newId : Nat) (now : Int) :
    PostResult Stock :=
  match validateStockCreate b with
  | some m => ⟨400, m, db, none⟩
  | none =>
    if db.stocks.any (fun s => s.symbol = b.symbol) then
      ⟨400, "Stock already exists in portfolio", db, none⟩
    else
      let s : Stock :=
        { id := newId, symbol := b.symbol, companyName := b.companyName
          quantity := b.quantity, purchasePrice := b.purchasePrice
          currentPrice := some b.purchasePrice, purchaseDate := b.purchaseDate
          sector := b.sector, notes := b.notes, updatedAt := now }
      ⟨201, "Stock added successfully", ⟨db.stocks ++ [s], db.bonds, db.cashflows⟩, some s⟩

/-- `PUT /api/stocks/:id` (stocks.js lines 135-179). -/
def putStock (db : DB) (i : Nat) (b : StockUpdateBody) (now : Int) : UpdateResult :=
  match validateStockUpdate b with
  | some m => ⟨400, m, db⟩
  | none =>
    if db.stocks.any (fun s => s.id = i) then
      if b.isEmpty then ⟨500, "Server error updating stock", db⟩
      else
        ⟨200, "Stock updated successfully",
          ⟨db.stocks.map (fun s => if s.id = i then applyStockUpdate b now s else s),
            db.bonds, db.cashflows⟩⟩
    else ⟨404, "Stock not found", db⟩

/-- `DELETE /api/stocks/:id` (stocks.js lines 186-211). -/
def deleteStock (db : DB) (i : Nat) : UpdateResult :=
  if db.stocks.any (fun s => s.id = i) then
    ⟨200, "Stock deleted successfully",
      ⟨db.stocks.filter (fun s => s.id ≠ i), db.bonds, db.cashflows⟩⟩
  else ⟨404, "Stock not found", db⟩

/-- Body of `POST /api/bonds` (`bondSchema`). -/
structure BondCreateBody where
  issuer : String
  bondType : String
  faceValue : Rat
  couponRate : Rat
  maturityDate : Int
  purchasePrice : Rat
  purchaseDate : Int
  rating : Option String
  notes : Option String
  deriving DecidableEq

/-- The closed enumeration of bond types. -/
def bondTypes : List String := ["government", "corporate", "municipal", "treasury"]

/-- `bondSchema.validate` (bonds router lines 111-121); `maturityDate` must be
`greater('now')`. -/
def validateBondCreate (now : Int) (b : BondCreateBody) : Option String :=
  if b.issuer.length < 1 ∨ 255 < b.issuer.length then some "issuer must be 1 to 255 characters"
  else if b.bondType ∉ bondTypes then some "bondType must be one of the allowed values"
  else if b.faceValue ≤ 0 then some "faceValue must be a positive number"
  else if b.couponRate < 0 ∨ 100 < b.couponRate then some "couponRate must be between 0 and 100"
  else if b.maturityDate ≤ now then some "maturityDate must be greater than now"
  else if b.purchasePrice ≤ 0 then some "purchasePrice must be a positive number"
  else if b.rating.any (fun v => 10 < v.length) then some "rating too long"
  else if b.notes.any (fun v => 1000 < v.length) then some "notes too long"
  else none

/-- Body of `PUT /api/bonds/:id` (`updateBondSchema`). -/
structure BondUpdateBody where
  faceValue : Option Rat
  couponRate : Option Rat
  purchasePrice : Option Rat
  currentPrice : Option Rat
  rating : Option String
  notes : Option String
  deriving DecidableEq

/-- `updateBondSchema.validate` (bonds router lines 123-130). -/
def validateBondUpdate (b : BondUpdateBody) : Option String :=
  if b.faceValue.any (fun v => v ≤ 0) then some "faceValue must be a positive number"
  else if b.couponRate.any (fun v => v < 0 ∨ 100 < v) then
    some "couponRate must be between 0 and 100"
  else if b.purchasePrice.any (fun v => v ≤ 0) then
    some "purchasePrice must be a positive number"
  else if b.currentPrice.any (fun v => v ≤ 0) then
    some "currentPrice must be a positive number"
  else if b.rating.any (fun v => 10 < v.length) then some "rating too long"
  else if b.notes.any (fun v => 1000 < v.length) then some "notes too long"
  else none

/-- No key present: the dynamic UPDATE is a MySQL syntax error, caught as 500. -/
def BondUpdateBody.isEmpty (b : BondUpdateBody) : Bool :=
  b.faceValue.isNone && b.couponRate.isNone && b.purchasePrice.isNone &&
    b.currentPrice.isNone && b.rating.isNone && b.notes.isNone

/-- The SET clause of the bond UPDATE. -/
def applyBondUpdate (b : BondUpdateBody) (now : Int) (r : Bond) : Bond :=
  { r with
    faceValue := b.faceValue.getD r.faceValue
    couponRate := b.couponRate.getD r.couponRate
    purchasePrice := b.purchasePrice.getD r.purchasePrice
    currentPrice := match b.currentPrice with | some c => some c | none => r.currentPrice
    rating := match b.rating with | some v => some v | none => r.rating
    notes := match b.notes with | some v => some v | none => r.notes
    updatedAt := now }

/-- `POST /api/bonds` (bonds router lines 185-235): no duplicate check;
`current_price` is initialised to the purchase price. -/
def postBond (db : DB) (b : BondCreateBody) (newId : Nat) (now : Int) :
    PostResult Bond :=
  match validateBondCreate now b with
  | some m => ⟨400, m, db, none⟩
  | none =>
    let r : Bond :=
      { id := newId, issuer := b.issuer, bondType := b.bondType
        faceValue := b.faceValue, couponRate := b.couponRate
        maturityDate := b.maturityDate, purchasePrice := b.purchasePrice
        currentPrice := some b.purchasePrice, purchaseDate := b.purchaseDate
        rating := b.rating, notes := b.notes, updatedAt := now }
    ⟨201, "Bond added successfully", ⟨db.stocks, db.bonds ++ [r], db.cashflows⟩, some r⟩

/-- `PUT /api/bonds/:id` (bonds router lines 242-288). -/
def putBond (db : DB) (i : Nat) (b : BondUpdateBody) (now : Int) : UpdateResult :=
  match validateBondUpdate b with
  | some m => ⟨400, m, db⟩
  | none =>
    if db.bonds.any (fun r => r.id = i) then
      if b.isEmpty then ⟨500, "Server error updating bond", db⟩
      else
        ⟨200, "Bond updated successfully",
          ⟨db.stocks, db.bonds.map (fun r => if r.id = i then applyBondUpdate b now r else r),
            db.cashflows⟩⟩
    else ⟨404, "Bond not found", db⟩

/-- `DELETE /api/bonds/:id` (bonds router lines 295-320). -/
def deleteBond (db : DB) (i : Nat) : UpdateResult :=
  if db.bonds.any (fun r => r.id = i) then
    ⟨200, "Bond deleted successfully",
      ⟨db.stocks, db.bonds.filter (fun r => r.id ≠ i), db.cashflows⟩⟩
  else ⟨404, "Bond not found", db⟩

/-- Body of `POST /api/cashflow` (`cashflowSchema`). -/
structure CashflowCreateBody where
  type : String
  category : String
  amount : Rat
  description : String
  date : Int
  isRecurring : Option Bool
  recurringFrequency : Option String
  tags : Option (List String)
  deriving DecidableEq

/-- The closed enumeration of cashflow entry types. -/
def cashflowTypes : List String := ["income", "expense"]

/-- The closed enumeration of recurring frequencies. -/
def recurringFrequencies : List String :=
  ["daily", "weekly", "monthly", "quarterly", "yearly"]

/-- `cashflowSchema.validate` (cashflow router lines 255-264). -/
def validateCashflowCreate (b : CashflowCreateBody) : Option String :=
  if b.type ∉ cashflowTypes then some "type must be income or expense"
  else if b.category.length < 1 ∨ 100 < b.category.length then
    some "category must be 1 to 100 characters"
  else if b.amount ≤ 0 then some "amount must be a positive number"
  else if b.description.length < 1 ∨ 255 < b.description.length then
    some "description must be 1 to 255 characters"
  else if b.recurringFrequency.any (fun v => v ∉ recurringFrequencies) then
    some "recurringFrequency must be one of the allowed values"
  else if b.tags.any (fun ts => ts.any (fun t => 50 < t.length)) then some "tag too long"
  else none

/-- Body of `PUT /api/cashflow/:id` (`updateCashflowSchema`): `type` is not
updatable. -/
structure CashflowUpdateBody where
  category : Option String
  amount : Option Rat
  description : Option String
  date : Option Int
  isRecurring : Option Bool
  recurringFrequency : Option String
  tags : Option (List String)
  deriving DecidableEq

/-- `updateCashflowSchema.validate` (cashflow router lines 266-274). -/
def validateCashflowUpdate (b : CashflowUpdateBody) : Option String :=
  if b.category.any (fun v => v.length < 1 ∨ 100 < v.length) then
    some "category must be 1 to 100 characters"
  else if b.amount.any (fun v => v ≤ 0) then some "amount must be a positive number"
  else if b.description.any (fun v => v.length < 1 ∨ 255 < v.length) then
    some "description must be 1 to 255 characters"
  else if b.recurringFrequency.any (fun v => v ∉ recurringFrequencies) then
    some "recurringFrequency must be one of the allowed values"
  else if b.tags.any (fun ts => ts.any (fun t => 50 < t.length)) then some "tag too long"
  else none

/-- No key present: the dynamic UPDATE is a MySQL syntax error, caught as 500. -/
def CashflowUpdateBody.isEmpty (b : CashflowUpdateBody) : Bool :=
  b.category.isNone && b.amount.isNone && b.description.isNone && b.date.isNone &&
    b.isRecurring.isNone && b.recurringFrequency.isNone && b.tags.isNone

/-- The SET clause of the cashflow UPDATE. -/
def applyCashflowUpdate (b : CashflowUpdateBody) (now : Int) (e : CashflowEntry) :
    CashflowEntry :=
  { e with
    category := b.category.getD e.category
    amount := b.amount.getD e.amount
    description := b.description.getD e.description
    date := b.date.getD e.date
    isRecurring := b.isRecurring.getD e.isRecurring
    recurringFrequency :=
      match b.recurringFrequency with | some v => some v | none => e.recurringFrequency
    tags := b.tags.getD e.tags
    updatedAt := now }

/-- `POST /api/cashflow` (cashflow router lines 347-395): `isRecurring` falls
back to `false` and `tags` to `[]`. -/
def postCashflow (db : DB) (b : CashflowCreateBody) (newId : Nat) (now : Int) :
    PostResult CashflowEntry :=
  match validateCashflowCreate b with
  | some m => ⟨400, m, db, none⟩
  | none =>
    let e : CashflowEntry :=
      { id := newId, type := b.type, category := b.category, amount := b.amount
        description := b.description, date := b.date
        isRecurring := b.isRecurring.getD false
        recurringFrequency := b.recurringFrequency
        tags := b.tags.getD [], updatedAt := now }
    ⟨201, "Cashflow entry added successfully",
      ⟨db.stocks, db.bonds, db.cashflows ++ [e]⟩, some e⟩

/-- `PUT /api/cashflow/:id` (cashflow router lines 402-447). -/
def putCashflow (db : DB) (i : Nat) (b : CashflowUpdateBody) (now : Int) : UpdateResult :=
  match validateCashflowUpdate b with
  | some m => ⟨400, m, db⟩
  | none =>
    if db.cashflows.any (fun e => e.id = i) then
      if b.isEmpty then ⟨500, "Server error updating cashflow", db⟩
      else
        ⟨200, "Cashflow entry updated successfully",
          ⟨db.stocks, db.bonds,
            db.cashflows.map (fun e => if e.id = i then applyCashflowUpdate b now e else e)⟩⟩
    else ⟨404, "Cashflow entry not found", db⟩

/-- `DELETE /api/cashflow/:id` (cashflow router lines 454-479). -/
def deleteCashflow (db : DB) (i : Nat) : UpdateResult :=
  if db.cashflows.any (fun e => e.id = i) then
    ⟨200, "Cashflow entry deleted successfully",
      ⟨db.stocks, db.bonds, db.cashflows.filter (fun e => e.id ≠ i)⟩⟩
  else ⟨404, "Cashflow entry not found", db⟩

/-! ## GET views -/

/-- One record of the `GET /api/stocks` response. -/
structure StockView where
  id : Nat
  symbol : String
  companyName : String
  quantity : Rat
  purchasePrice : Rat
  currentPrice : Rat
  currentValue : Rat
  unrealizedGainLoss : Rat
  percentageChange : Rat
  purchaseDate : Int
  sector : Option String
  notes : Option String
  deriving DecidableEq

/-- The row-to-JSON mapping of `GET /api/stocks` (stocks.js lines 32-69). -/
def stockView (s : Stock) : StockView :=
  { id := s.id, symbol := s.symbol, companyName := s.companyName
    quantity := s.quantity, purchasePrice := s.purchasePrice
    currentPrice := s.effPrice
    currentValue := s.quantity * s.effPrice
    unrealizedGainLoss := s.quantity * (s.effPrice - s.purchasePrice)
    percentageChange := (s.effPrice - s.purchasePrice) / s.purchasePrice * 100
    purchaseDate := s.purchaseDate, sector := s.sector, notes := s.notes }

/-- `GET /api/stocks`.  Its `ORDER BY symbol ASC` only affects presentation
order and is not modelled. -/
def getStocks (db : DB) : List StockView := db.stocks.map stockView

/-- One record of the `GET /api/bonds` response. -/
structure BondView where
  id : Nat
  issuer : String
  bondType : String
  faceValue : Rat
  couponRate : Rat
  maturityDate : Int
  purchasePrice : Rat
  currentPrice : Rat
  currentValue : Rat
  gainLoss : Rat
  daysToMaturity : Int
  annualCoupon : Rat
  purchaseDate : Int
  rating : Option String
  notes : Option String
  deriving DecidableEq

/-- The row-to-JSON mapping of `GET /api/bonds` (bonds router lines 137-178). -/
def bondView (today : Int) (b : Bond) : BondView :=
  { id := b.id, issuer := b.issuer, bondType := b.bondType
    faceValue := b.faceValue, couponRate := b.couponRate
    maturityDate := b.maturityDate, purchasePrice := b.purchasePrice
    currentPrice := b.effPrice, currentValue := b.effPrice
    gainLoss := b.effPrice - b.purchasePrice
    daysToMaturity := b.maturityDate - today
    annualCoupon := b.faceValue * b.couponRate / 100
    purchaseDate := b.purchaseDate, rating := b.rating, notes := b.notes }

/-- `GET /api/bonds`.  Its `ORDER BY maturity_date ASC` only affects
presentation order and is not modelled. -/
def getBonds (db : DB) (today : Int) : List BondView := db.bonds.map (bondView today)

/-! ## Error-handling middleware -/

/-- The JSON body of the express error middleware (server.js lines 78-84). -/
structure ErrResp where
  status : Nat
  message : String
  errorDetail : Option String
  deriving DecidableEq

/-- The error-handling middleware: 500, a generic message, and the exception
detail only in development mode (`{}` otherwise, modelled as `none`). -/
def errorHandler (env : String) (errMessage : String) : ErrResp :=
  ⟨500, "Something went wrong!", if env = "development" then some errMessage else none⟩

/-! ## Helper lemmas about row lookup and the CRUD handlers -/

lemma any_id_stocks {l : List Stock} {i : Nat} :
    l.any (fun s => s.id = i) = true ↔ ∃ s ∈ l, s.id = i := by
  simp [List.any_eq_true]

lemma any_id_bonds {l : List Bond} {i : Nat} :
    l.any (fun r => r.id = i) = true ↔ ∃ r ∈ l, r.id = i := by
  simp [List.any_eq_true]

lemma any_id_cashflows {l : List CashflowEntry} {i : Nat} :
    l.any (fun e => e.id = i) = true ↔ ∃ e ∈ l, e.id = i := by
  simp [List.any_eq_true]

lemma deleteStock_present {db : DB} {i : Nat} (hex : ∃ s ∈ db.stocks, s.id = i) :
    deleteStock db i =
      ⟨200, "Stock deleted successfully",
        ⟨db.stocks.filter (fun s => s.id ≠ i), db.bonds, db.cashflows⟩⟩ := by
  rw [deleteStock, if_pos (any_id_stocks.mpr hex)]

lemma deleteStock_absent {db : DB} {i : Nat} (h : ¬∃ s ∈ db.stocks, s.id = i) :
    deleteStock db i = ⟨404, "Stock not found", db⟩ := by
  rw [deleteStock, if_neg (fun hc => h (any_id_stocks.mp hc))]

lemma putStock_absent {db : DB} {i : Nat} {b : StockUpdateBody} {now : Int}
    (hv : validateStockUpdate b = none) (h : ¬∃ s ∈ db.stocks, s.id = i) :
    putStock db i b now = ⟨404, "Stock not found", db⟩ := by
  rw [putStock, hv, if_neg (fun hc => h (any_id_stocks.mp hc))]

lemma deleteBond_present {db : DB} {i : Nat} (hex : ∃ r ∈ db.bonds, r.id = i) :
    deleteBond db i =
      ⟨200, "Bond deleted successfully",
        ⟨db.stocks, db.bonds.filter (fun r => r.id ≠ i), db.cashflows⟩⟩ := by
  rw [deleteBond, if_pos (any_id_bonds.mpr hex)]

lemma deleteBond_absent {db : DB} {i : Nat} (h : ¬∃ r ∈ db.bonds, r.id = i) :
    deleteBond db i = ⟨404, "Bond not found", db⟩ := by
  rw [deleteBond, if_neg (fun hc => h (any_id_bonds.mp hc))]

lemma putBond_absent {db : DB} {i : Nat} {b : BondUpdateBody} {now : Int}
    (hv : validateBondUpdate b = none) (h : ¬∃ r ∈ db.bonds, r.id = i) :
    putBond db i b now = ⟨404, "Bond not found", db⟩ := by
  rw [putBond, hv, if_neg (fun hc => h (any_id_bonds.mp hc))]

lemma deleteCashflow_present {db : DB} {i : Nat} (hex : ∃ e ∈ db.cashflows, e.id = i) :
    deleteCashflow db i =
      ⟨200, "Cashflow entry deleted successfully",
        ⟨db.stocks, db.bonds, db.cashflows.filter (fun e => e.id ≠ i)⟩⟩ := by
  rw [deleteCashflow, if_pos (any_id_cashflows.mpr hex)]

lemma deleteCashflow_absent {db : DB} {i : Nat} (h : ¬∃ e ∈ db.cashflows, e.id = i) :
    deleteCashflow db i = ⟨404, "Cashflow entry not found", db⟩ := by
  rw [deleteCashflow, if_neg (fun hc => h (any_id_cashflows.mp hc))]

lemma putCashflow_absent {db : DB} {i : Nat} {b : CashflowUpdateBody} {now : Int}
    (hv : validateCashflowUpdate b = none) (h : ¬∃ e ∈ db.cashflows, e.id = i) :
    putCashflow db i b now = ⟨404, "Cashflow entry not found", db⟩ := by
  rw [putCashflow, hv, if_neg (fun hc => h (any_id_cashflows.mp hc))]

lemma mem_filter_ne_id {l : List Stock} {i : Nat} {s : Stock}
    (h : s ∈ l.filter (fun s => s.id ≠ i)) : s.id ≠ i := by
  have := (List.mem_filter.mp h).2
  simpa using this

lemma mem_filter_ne_id_bond {l : List Bond} {i : Nat} {r : Bond}
    (h : r ∈ l.filter (fun r => r.id ≠ i)) : r.id ≠ i := by
  have := (List.mem_filter.mp h).2
  simpa using this

lemma mem_filter_ne_id_cash {l : List CashflowEntry} {i : Nat} {e : CashflowEntry}
    (h : e ∈ l.filter (fun e => e.id ≠ i)) : e.id ≠ i := by
  have := (List.mem_filter.mp h).2
  simpa using this

/-- C5: deleting an existing id removes exactly that row (no row with the id
remains, every other row survives, and it is gone from the GET response), and
afterwards a schema-valid update, or another delete, of the same id returns 404
leaving the state unchanged; deleting an id not present returns 404 and leaves
the table unchanged.  Stated for all three record types. -/
theorem delete_exactly_and_404 (db : DB) (i : Nat) :
    ((∃ s ∈ db.stocks, s.id = i) →
      (deleteStock db i).status = 200 ∧
      (∀ s ∈ (deleteStock db i).db.stocks, s.id ≠ i) ∧
      (∀ s ∈ db.stocks, s.id ≠ i → s ∈ (deleteStock db i).db.stocks) ∧
      (∀ v ∈ getStocks (deleteStock db i).db, v.id ≠ i) ∧
      (∀ b now, validateStockUpdate b = none →
        putStock (deleteStock db i).db i b now
          = ⟨404, "Stock not found", (deleteStock db i).db⟩) ∧
      deleteStock (deleteStock db i).db i
          = ⟨404, "Stock not found", (deleteStock db i).db⟩) ∧
    ((¬∃ s ∈ db.stocks, s.id = i) → deleteStock db i = ⟨404, "Stock not found", db⟩) ∧
    ((∃ r ∈ db.bonds, r.id = i) →
      (deleteBond db i).status = 200 ∧
      (∀ r ∈ (deleteBond db i).db.bonds, r.id ≠ i) ∧
      (∀ r ∈ db.bonds, r.id ≠ i → r ∈ (deleteBond db i).db.bonds) ∧
      (∀ today, ∀ v ∈ getBonds (deleteBond db i).db today, v.id ≠ i) ∧
      (∀ b now, validateBondUpdate b = none →
        putBond (deleteBond db i).db i b now
          = ⟨404, "Bond not found", (deleteBond db i).db⟩) ∧
      deleteBond (deleteBond db i).db i
          = ⟨404, "Bond not found", (deleteBond db i).db⟩) ∧
    ((¬∃ r ∈ db.bonds, r.id = i) → deleteBond db i = ⟨404, "Bond not found", db⟩) ∧
    ((∃ e ∈ db.cashflows, e.id = i) →
      (deleteCashflow db i).status = 200 ∧
      (∀ e ∈ (deleteCashflow db i).db.cashflows, e.id ≠ i) ∧
      (∀ e ∈ db.cashflows, e.id ≠ i → e ∈ (deleteCashflow db i).db.cashflows) ∧
      (∀ b now, validateCashflowUpdate b = none →
        putCashflow (deleteCashflow db i).db i b now
          = ⟨404, "Cashflow entry not found", (deleteCashflow db i).db⟩) ∧
      deleteCashflow (deleteCashflow db i).db i
          = ⟨404, "Cashflow entry not found", (deleteCashflow db i).db⟩) ∧
    ((¬∃ e ∈ db.cashflows, e.id = i) →
      deleteCashflow db i = ⟨404, "Cashflow entry not found", db⟩) := by
  refine ⟨?_, deleteStock_absent, ?_, deleteBond_absent, ?_, deleteCashflow_absent⟩
  · intro hex
    rw [deleteStock_present hex]
    refine ⟨rfl, fun s hs => mem_filter_ne_id hs, ?_, ?_, ?_, ?_⟩
    · intro s hs hne
      exact List.mem_filter.mpr ⟨hs, by simpa using hne⟩
    · intro v hv
      obtain ⟨s, hs, rfl⟩ := List.mem_map.mp hv
      exact mem_filter_ne_id hs
    · intro b now hvb
      exact putStock_absent hvb (fun ⟨s, hs, hid⟩ => mem_filter_ne_id hs hid)
    · exact deleteStock_absent (fun ⟨s, hs, hid⟩ => mem_filter_ne_id hs hid)
  · intro hex
    rw [deleteBond_present hex]
    refine ⟨rfl, fun r hr => mem_filter_ne_id_bond hr, ?_, ?_, ?_, ?_⟩
    · intro r hr hne
      exact List.mem_filter.mpr ⟨hr, by simpa using hne⟩
    · intro today v hv
      obtain ⟨r, hr, rfl⟩ := List.mem_map.mp hv
      exact mem_filter_ne_id_bond hr
    · intro b now hvb
      exact putBond_absent hvb (fun ⟨r, hr, hid⟩ => mem_filter_ne_id_bond hr hid)
    · exact deleteBond_absent (fun ⟨r, hr, hid⟩ => mem_filter_ne_id_bond hr hid)
  · intro hex
    rw [deleteCashflow_present hex]
    refine ⟨rfl, fun e he => mem_filter_ne_id_cash he, ?_, ?_, ?_⟩
    · intro e he hne
      exact List.mem_filter.mpr ⟨he, by simpa using hne⟩
    · intro b now hvb
      exact putCashflow_absent hvb (fun ⟨e, he, hid⟩ => mem_filter_ne_id_cash he hid)
    · exact deleteCashflow_absent (fun ⟨e, he, hid⟩ => mem_filter_ne_id_cash he hid)

/-- Witness for `delete_exactly_and_404`: deleting the only stock of a
one-stock state returns 200 and a second delete of the same id returns 404. -/
theorem delete_exactly_and_404_witness :
    (∃ s ∈ (⟨[⟨3, "AAPL", "Apple", 1, 10, none, 0, none, none, 0⟩], [], []⟩ : DB).stocks,
        s.id = 3) ∧
    (deleteStock ⟨[⟨3, "AAPL", "Apple", 1, 10, none, 0, none, none, 0⟩], [], []⟩ 3).status
        = 200 :=
  ⟨by decide,
   ((delete_exactly_and_404
      ⟨[⟨3, "AAPL", "Apple", 1, 10, none, 0, none, none, 0⟩], [], []⟩ 3).1
     (by decide)).1⟩

/-- C6: a body failing schema validation yields 400 with the validator's
message and an unchanged state; a schema-valid request addressing a missing row
yields 404 with an unchanged state; the error middleware yields 500 with a
generic message and includes the exception detail exactly in development
mode. -/
theorem validation_errors_and_500 :
    (∀ (db : DB) (b : StockCreateBody) (newId : Nat) (now : Int) (m : String),
        validateStockCreate b = some m → postStock db b newId now = ⟨400, m, db, none⟩) ∧
    (∀ (db : DB) (b : BondCreateBody) (newId : Nat) (now : Int) (m : String),
        validateBondCreate now b = some m → postBond db b newId now = ⟨400, m, db, none⟩) ∧
    (∀ (db : DB) (b : CashflowCreateBody) (newId : Nat) (now : Int) (m : String),
        validateCashflowCreate b = some m →
          postCashflow db b newId now = ⟨400, m, db, none⟩) ∧
    (∀ (db : DB) (i : Nat) (b : StockUpdateBody) (now : Int) (m : String),
        validateStockUpdate b = some m → putStock db i b now = ⟨400, m, db⟩) ∧
    (∀ (db : DB) (i : Nat) (b : BondUpdateBody) (now : Int) (m : String),
        validateBondUpdate b = some m → putBond db i b now = ⟨400, m, db⟩) ∧
    (∀ (db : DB) (i : Nat) (b : CashflowUpdateBody) (now : Int) (m : String),
        validateCashflowUpdate b = some m → putCashflow db i b now = ⟨400, m, db⟩) ∧
    (∀ (db : DB) (i : Nat) (b : StockUpdateBody) (now : Int),
        validateStockUpdate b = none → (¬∃ s ∈ db.stocks, s.id = i) →
          putStock db i b now = ⟨404, "Stock not found", db⟩) ∧
    (∀ (db : DB) (i : Nat) (b : BondUpdateBody) (now : Int),
        validateBondUpdate b = none → (¬∃ r ∈ db.bonds, r.id = i) →
          putBond db i b now = ⟨404, "Bond not found", db⟩) ∧
    (∀ (db : DB) (i : Nat) (b : CashflowUpdateBody) (now : Int),
        validateCashflowUpdate b = none → (¬∃ e ∈ db.cashflows, e.id = i) →
          putCashflow db i b now = ⟨404, "Cashflow entry not found", db⟩) ∧
    (∀ (db : DB) (i : Nat), (¬∃ s ∈ db.stocks, s.id = i) →
        deleteStock db i = ⟨404, "Stock not found", db⟩) ∧
    (∀ (db : DB) (i : Nat), (¬∃ r ∈ db.bonds, r.id = i) →
        deleteBond db i = ⟨404, "Bond not found", db⟩) ∧
    (∀ (db : DB) (i : Nat), (¬∃ e ∈ db.cashflows, e.id = i) →
        deleteCashflow db i = ⟨404, "Cashflow entry not found", db⟩) ∧
    (∀ env e, (errorHandler env e).status = 500 ∧
        (errorHandler env e).message = "Something went wrong!" ∧
        ((errorHandler env e).errorDetail = some e ↔ env = "development")) := by
  refine ⟨?_, ?_, ?_, ?_, ?_, ?_,
    fun db i b now hv h => putStock_absent hv h,
    fun db i b now hv h => putBond_absent hv h,
    fun db i b now hv h => putCashflow_absent hv h,
    fun db i h => deleteStock_absent h,
    fun db i h => deleteBond_absent h,
    fun db i h => deleteCashflow_absent h, ?_⟩
  · intro db b newId now m hm; rw [postStock, hm]
  · intro db b newId now m hm; rw [postBond, hm]
  · intro db b newId now m hm; rw [postCashflow, hm]
  · intro db i b now m hm; rw [putStock, hm]
  · intro db i b now m hm; rw [putBond, hm]
  · intro db i b now m hm; rw [putCashflow, hm]
  · intro env e
    by_cases h : env = "development"
    · simp [errorHandler, h]
    · simp [errorHandler, h]

/-- Witness for `validation_errors_and_500`: a stock body with a nonpositive
quantity is rejected with 400 and the state is unchanged. -/
theorem validation_errors_and_500_witness :
    validateStockCreate ⟨"AAPL", "Apple", -1, 10, 0, none, none⟩
        = some "quantity must be a positive number" ∧
    postStock ⟨[], [], []⟩ ⟨"AAPL", "Apple", -1, 10, 0, none, none⟩ 1 0
        = ⟨400, "quantity must be a positive number", ⟨[], [], []⟩, none⟩ :=
  ⟨by decide,
   validation_errors_and_500.1 ⟨[], [], []⟩ ⟨"AAPL", "Apple", -1, 10, 0, none, none⟩ 1 0
     "quantity must be a positive number" (by decide)⟩

/-! ## Frame property of the update handlers -/

/-- Columns of a stock row not named by a present body key are unchanged (the
id, symbol, company name and purchase date are never updatable). -/
def StockFrame (b : StockUpdateBody) (old new : Stock) : Prop :=
  new.id = old.id ∧ new.symbol = old.symbol ∧ new.companyName = old.companyName ∧
  new.purchaseDate = old.purchaseDate ∧
  (b.quantity = none → new.quantity = old.quantity) ∧
  (b.purchasePrice = none → new.purchasePrice = old.purchasePrice) ∧
  (b.currentPrice = none → new.currentPrice = old.currentPrice) ∧
  (b.sector = none → new.sector = old.sector) ∧
  (b.notes = none → new.notes = old.notes)

/-- Columns of a bond row not named by a present body key are unchanged (the
id, issuer, bond type, maturity date and purchase date are never updatable). -/
def BondFrame (b : BondUpdateBody) (old new : Bond) : Prop :=
  new.id = old.id ∧ new.issuer = old.issuer ∧ new.bondType = old.bondType ∧
  new.maturityDate = old.maturityDate ∧ new.purchaseDate = old.purchaseDate ∧
  (b.faceValue = none → new.faceValue = old.faceValue) ∧
  (b.couponRate = none → new.couponRate = old.couponRate) ∧
  (b.purchasePrice = none → new.purchasePrice = old.purchasePrice) ∧
  (b.currentPrice = none → new.currentPrice = old.currentPrice) ∧
  (b.rating = none → new.rating = old.rating) ∧
  (b.notes = none → new.notes = old.notes)

/-- Columns of a cashflow row not named by a present body key are unchanged
(the id and type are never updatable). -/
def CashflowFrame (b : CashflowUpdateBody) (old new : CashflowEntry) : Prop :=
  new.id = old.id ∧ new.type = old.type ∧
  (b.category = none → new.category = old.category) ∧
  (b.amount = none → new.amount = old.amount) ∧
  (b.description = none → new.description = old.description) ∧
  (b.date = none → new.date = old.date) ∧
  (b.isRecurring = none → new.isRecurring = old.isRecurring) ∧
  (b.recurringFrequency = none → new.recurringFrequency = old.recurringFrequency) ∧
  (b.tags = none → new.tags = old.tags)

lemma applyStockUpdate_frame (b : StockUpdateBody) (now : Int) (s : Stock) :
    StockFrame b s (applyStockUpdate b now s) := by
  refine ⟨rfl, rfl, rfl, rfl, ?_, ?_, ?_, ?_, ?_⟩ <;>
    (intro h; simp [applyStockUpdate, h])

lemma applyBondUpdate_frame (b : BondUpdateBody) (now : Int) (r : Bond) :
    BondFrame b r (applyBondUpdate b now r) := by
  refine ⟨rfl, rfl, rfl, rfl, rfl, ?_, ?_, ?_, ?_, ?_, ?_⟩ <;>
    (intro h; simp [applyBondUpdate, h])

lemma applyCashflowUpdate_frame (b : CashflowUpdateBody) (now : Int) (e : CashflowEntry) :
    CashflowFrame b e (applyCashflowUpdate b now e) := by
  refine ⟨rfl, rfl, ?_, ?_, ?_, ?_, ?_, ?_, ?_⟩ <;>
    (intro h; simp [applyCashflowUpdate, h])

lemma stockFrame_refl (b : StockUpdateBody) (s : Stock) : StockFrame b s s :=
  ⟨rfl, rfl, rfl, rfl, fun _ => rfl, fun _ => rfl, fun _ => rfl, fun _ => rfl, fun _ => rfl⟩

lemma bondFrame_refl (b : BondUpdateBody) (r : Bond) : BondFrame b r r :=
  ⟨rfl, rfl, rfl, rfl, rfl, fun _ => rfl, fun _ => rfl, fun _ => rfl, fun _ => rfl,
    fun _ => rfl, fun _ => rfl⟩

lemma cashflowFrame_refl (b : CashflowUpdateBody) (e : CashflowEntry) : CashflowFrame b e e :=
  ⟨rfl, rfl, fun _ => rfl, fun _ => rfl, fun _ => rfl, fun _ => rfl, fun _ => rfl,
    fun _ => rfl, fun _ => rfl⟩

/-- C4: for a schema-valid body and an existing id, each PUT handler touches
only the addressed row's columns named by the present body keys (plus the
`updated_at` timestamp): the other tables are untouched, rows with a different
id are equal to their old value, and the addressed row agrees with its old
value on every column whose key is absent from the body. -/
theorem update_changes_only_named_fields :
    (∀ (db : DB) (i : Nat) (b : StockUpdateBody) (now : Int),
      validateStockUpdate b = none → (∃ s ∈ db.stocks, s.id = i) →
        (putStock db i b now).db.bonds = db.bonds ∧
        (putStock db i b now).db.cashflows = db.cashflows ∧
        List.Forall₂
          (fun old new => (old.id ≠ i → new = old) ∧ (old.id = i → StockFrame b old new))
          db.stocks (putStock db i b now).db.stocks) ∧
    (∀ (db : DB) (i : Nat) (b : BondUpdateBody) (now : Int),
      validateBondUpdate b = none → (∃ r ∈ db.bonds, r.id = i) →
        (putBond db i b now).db.stocks = db.stocks ∧
        (putBond db i b now).db.cashflows = db.cashflows ∧
        List.Forall₂
          (fun old new => (old.id ≠ i → new = old) ∧ (old.id = i → BondFrame b old new))
          db.bonds (putBond db i b now).db.bonds) ∧
    (∀ (db : DB) (i : Nat) (b : CashflowUpdateBody) (now : Int),
      validateCashflowUpdate b = none → (∃ e ∈ db.cashflows, e.id = i) →
        (putCashflow db i b now).db.stocks = db.stocks ∧
        (putCashflow db i b now).db.bonds = db.bonds ∧
        List.Forall₂
          (fun old new => (old.id ≠ i → new = old) ∧ (old.id = i → CashflowFrame b old new))
          db.cashflows (putCashflow db i b now).db.cashflows) := by
  refine ⟨?_, ?_, ?_⟩
  · intro db i b now hv hex
    rw [putStock, hv, if_pos (any_id_stocks.mpr hex)]
    by_cases hemp : b.isEmpty
    · rw [if_pos hemp]
      exact ⟨rfl, rfl, List.forall₂_same.mpr fun s _ =>
        ⟨fun _ => rfl, fun _ => stockFrame_refl b s⟩⟩
    · rw [if_neg hemp]
      refine ⟨rfl, rfl, ?_⟩
      rw [List.forall₂_map_right_iff]
      refine List.forall₂_same.mpr fun s _ => ⟨fun hne => if_neg hne, fun heq => ?_⟩
      rw [if_pos heq]
      exact applyStockUpdate_frame b now s
  · intro db i b now hv hex
    rw [putBond, hv, if_pos (any_id_bonds.mpr hex)]
    by_cases hemp : b.isEmpty
    · rw [if_pos hemp]
      exact ⟨rfl, rfl, List.forall₂_same.mpr fun r _ =>
        ⟨fun _ => rfl, fun _ => bondFrame_refl b r⟩⟩
    · rw [if_neg hemp]
      refine ⟨rfl, rfl, ?_⟩
      rw [List.forall₂_map_right_iff]
      refine List.forall₂_same.mpr fun r _ => ⟨fun hne => if_neg hne, fun heq => ?_⟩
      rw [if_pos heq]
      exact applyBondUpdate_frame b now r
  · intro db i b now hv hex
    rw [putCashflow, hv, if_pos (any_id_cashflows.mpr hex)]
    by_cases hemp : b.isEmpty
    · rw [if_pos hemp]
      exact ⟨rfl, rfl, List.forall₂_same.mpr fun e _ =>
        ⟨fun _ => rfl, fun _ => cashflowFrame_refl b e⟩⟩
    · rw [if_neg hemp]
      refine ⟨rfl, rfl, ?_⟩
      rw [List.forall₂_map_right_iff]
      refine List.forall₂_same.mpr fun e _ => ⟨fun hne => if_neg hne, fun heq => ?_⟩
      rw [if_pos heq]
      exact applyCashflowUpdate_frame b now e

/-- Witness for `update_changes_only_named_fields`: updating only the current
price of one of two stocks keeps the other stock and the other tables
unchanged. -/
theorem update_changes_only_named_fields_witness :
    validateStockUpdate ⟨none, none, some 12, none, none⟩ = none ∧
    (∃ s ∈ (⟨[⟨1, "A", "A Co", 1, 10, none, 0, none, none, 0⟩,
              ⟨2, "B", "B Co", 2, 20, none, 0, none, none, 0⟩], [], []⟩ : DB).stocks,
        s.id = 1) ∧
    List.Forall₂
      (fun old new => (old.id ≠ 1 → new = old) ∧
        (old.id = 1 → StockFrame ⟨none, none, some 12, none, none⟩ old new))
      (⟨[⟨1, "A", "A Co", 1, 10, none, 0, none, none, 0⟩,
         ⟨2, "B", "B Co", 2, 20, none, 0, none, none, 0⟩], [], []⟩ : DB).stocks
      (putStock
        ⟨[⟨1, "A", "A Co", 1, 10, none, 0, none, none, 0⟩,
          ⟨2, "B", "B Co", 2, 20, none, 0, none, none, 0⟩], [], []⟩
        1 ⟨none, none, some 12, none, none⟩ 9).db.stocks :=
  ⟨by decide, by decide,
   (update_changes_only_named_fields.1
      ⟨[⟨1, "A", "A Co", 1, 10, none, 0, none, none, 0⟩,
        ⟨2, "B", "B Co", 2, 20, none, 0, none, none, 0⟩], [], []⟩
      1 ⟨none, none, some 12, none, none⟩ 9 (by decide) (by decide)).2.2⟩

/-! ## Data-model invariants -/

/-- Invariant of a stock row: positive quantity and prices. -/
def StockInv (s : Stock) : Prop :=
  0 < s.quantity ∧ 0 < s.purchasePrice ∧ ∀ c ∈ s.currentPrice, 0 < c

/-- Invariant of a bond row: positive monetary fields, coupon rate in [0, 100],
bond type in the closed enumeration. -/
def BondInv (r : Bond) : Prop :=
  0 < r.faceValue ∧ 0 ≤ r.couponRate ∧ r.couponRate ≤ 100 ∧ r.bondType ∈ bondTypes ∧
    0 < r.purchasePrice ∧ ∀ c ∈ r.currentPrice, 0 < c

/-- Invariant of a cashflow row: positive amount, type in the closed
enumeration. -/
def CashflowInv (e : CashflowEntry) : Prop :=
  0 < e.amount ∧ e.type ∈ cashflowTypes

/-- The invariant over the whole database state. -/
def DBInv (db : DB) : Prop :=
  (∀ s ∈ db.stocks, StockInv s) ∧ (∀ r ∈ db.bonds, BondInv r) ∧
    (∀ e ∈ db.cashflows, CashflowInv e)

lemma validateStockCreate_sound {b : StockCreateBody}
    (h : validateStockCreate b = none) : 0 < b.quantity ∧ 0 < b.purchasePrice := by
  unfold validateStockCreate at h
  split_ifs at h with h1 h2 h3 h4 h5 h6
  exact ⟨lt_of_not_le h3, lt_of_not_le h4⟩

lemma validateBondCreate_sound {now : Int} {b : BondCreateBody}
    (h : validateBondCreate now b = none) :
    0 < b.faceValue ∧ 0 ≤ b.couponRate ∧ b.couponRate ≤ 100 ∧
      b.bondType ∈ bondTypes ∧ 0 < b.purchasePrice := by
  unfold validateBondCreate at h
  split_ifs at h with h1 h2 h3 h4 h5 h6 h7 h8
  push_neg at h4
  exact ⟨lt_of_not_le h3, h4.1, h4.2, h2, lt_of_not_le h6⟩

lemma validateCashflowCreate_sound {b : CashflowCreateBody}
    (h : validateCashflowCreate b = none) : 0 < b.amount ∧ b.type ∈ cashflowTypes := by
  unfold validateCashflowCreate at h
  split_ifs at h with h1 h2 h3 h4 h5 h6
  exact ⟨lt_of_not_le h3, h1⟩

lemma validateStockUpdate_sound {b : StockUpdateBody}
    (h : validateStockUpdate b = none) :
    (∀ q ∈ b.quantity, 0 < q) ∧ (∀ p ∈ b.purchasePrice, 0 < p) ∧
      (∀ c ∈ b.currentPrice, 0 < c) := by
  unfold validateStockUpdate at h
  split_ifs at h with h1 h2 h3 h4 h5
  refine ⟨fun q hq => ?_, fun p hp => ?_, fun c hc => ?_⟩
  · rw [Option.mem_def] at hq
    rw [hq] at h1
    simpa using h1
  · rw [Option.mem_def] at hp
    rw [hp] at h2
    simpa using h2
  · rw [Option.mem_def] at hc
    rw [hc] at h3
    simpa using h3

lemma validateBondUpdate_sound {b : BondUpdateBody}
    (h : validateBondUpdate b = none) :
    (∀ v ∈ b.faceValue, 0 < v) ∧ (∀ v ∈ b.couponRate, 0 ≤ v ∧ v ≤ 100) ∧
      (∀ v ∈ b.purchasePrice, 0 < v) ∧ (∀ v ∈ b.currentPrice, 0 < v) := by
  unfold validateBondUpdate at h
  split_ifs at h with h1 h2 h3 h4 h5 h6
  refine ⟨fun v hv => ?_, fun v hv => ?_, fun v hv => ?_, fun v hv => ?_⟩
  · rw [Option.mem_def] at hv
    rw [hv] at h1
    simpa using h1
  · rw [Option.mem_def] at hv
    rw [hv] at h2
    simp only [Option.any_some, decide_eq_true_eq, not_or, not_lt] at h2
    exact h2
  · rw [Option.mem_def] at hv
    rw [hv] at h3
    simpa using h3
  · rw [Option.mem_def] at hv
    rw [hv] at h4
    simpa using h4

lemma validateCashflowUpdate_sound {b : CashflowUpdateBody}
    (h : validateCashflowUpdate b = none) : ∀ v ∈ b.amount, 0 < v := by
  unfold validateCashflowUpdate at h
  split_ifs at h with h1 h2 h3 h4 h5
  intro v hv
  rw [Option.mem_def] at hv
  rw [hv] at h2
  simpa using h2

lemma applyStockUpdate_inv {b : StockUpdateBody} {now : Int} {s : Stock}
    (hv : validateStockUpdate b = none) (hs : StockInv s) :
    StockInv (applyStockUpdate b now s) := by
  obtain ⟨hq, hp, hc⟩ := validateStockUpdate_sound hv
  obtain ⟨hq0, hp0, hc0⟩ := hs
  refine ⟨?_, ?_, ?_⟩
  · cases hb : b.quantity with
    | none => simpa [applyStockUpdate, hb] using hq0
    | some q => simpa [applyStockUpdate, hb] using hq q (Option.mem_def.mpr hb)
  · cases hb : b.purchasePrice with
    | none => simpa [applyStockUpdate, hb] using hp0
    | some p => simpa [applyStockUpdate, hb] using hp p (Option.mem_def.mpr hb)
  · cases hb : b.currentPrice with
    | none => simpa [applyStockUpdate, hb] using hc0
    | some c =>
        intro x hx
        simp only [applyStockUpdate, hb, Option.mem_def, Option.some.injEq] at hx
        rw [← hx]
        exact hc c (Option.mem_def.mpr hb)

lemma applyBondUpdate_inv {b : BondUpdateBody} {now : Int} {r : Bond}
    (hv : validateBondUpdate b = none) (hr : BondInv r) :
    BondInv (applyBondUpdate b now r) := by
  obtain ⟨hf, hcr, hp, hc⟩ := validateBondUpdate_sound hv
  obtain ⟨hf0, hcr0, hcr1, ht0, hp0, hc0⟩ := hr
  refine ⟨?_, ?_, ?_, ?_, ?_, ?_⟩
  · cases hb : b.faceValue with
    | none => simpa [applyBondUpdate, hb] using hf0
    | some v => simpa [applyBondUpdate, hb] using hf v (Option.mem_def.mpr hb)
  · cases hb : b.couponRate with
    | none => simpa [applyBondUpdate, hb] using hcr0
    | some v => simpa [applyBondUpdate, hb] using (hcr v (Option.mem_def.mpr hb)).1
  · cases hb : b.couponRate with
    | none => simpa [applyBondUpdate, hb] using hcr1
    | some v => simpa [applyBondUpdate, hb] using (hcr v (Option.mem_def.mpr hb)).2
  · simpa [applyBondUpdate] using ht0
  · cases hb : b.purchasePrice with
    | none => simpa [applyBondUpdate, hb] using hp0
    | some v => simpa [applyBondUpdate, hb] using hp v (Option.mem_def.mpr hb)
  · cases hb : b.currentPrice with
    | none => simpa [applyBondUpdate, hb] using hc0
    | some v =>
        intro x hx
        simp only [applyBondUpdate, hb, Option.mem_def, Option.some.injEq] at hx
        rw [← hx]
        exact hc v (Option.mem_def.mpr hb)

lemma applyCashflowUpdate_inv {b : CashflowUpdateBody} {now : Int} {e : CashflowEntry}
    (hv : validateCashflowUpdate b = none) (he : CashflowInv e) :
    CashflowInv (applyCashflowUpdate b now e) := by
  have ha := validateCashflowUpdate_sound hv
  obtain ⟨ha0, ht0⟩ := he
  refine ⟨?_, ?_⟩
  · cases hb : b.amount with
    | none => simpa [applyCashflowUpdate, hb] using ha0
    | some v => simpa [applyCashflowUpdate, hb] using ha v (Option.mem_def.mpr hb)
  · simpa [applyCashflowUpdate] using ht0

lemma postStock_inv {db : DB} {b : StockCreateBody} {newId : Nat} {now : Int}
    (h : DBInv db) : DBInv (postStock db b newId now).db := by
  obtain ⟨hs, hb, hc⟩ := h
  cases hval : validateStockCreate b with
  | some m => rw [postStock, hval]; exact ⟨hs, hb, hc⟩
  | none =>
      rw [postStock, hval]
      split_ifs with hdup
      · exact ⟨hs, hb, hc⟩
      · obtain ⟨hq, hp⟩ := validateStockCreate_sound hval
        refine ⟨?_, hb, hc⟩
        intro s hsmem
        rcases List.mem_append.mp hsmem with hold | hnew
        · exact hs s hold
        · rw [List.mem_singleton.mp hnew]
          refine ⟨hq, hp, fun c hc2 => ?_⟩
          have h3 : some b.purchasePrice = some c := hc2
          rw [← Option.some.inj h3]
          exact hp

lemma postBond_inv {db : DB} {b : BondCreateBody} {newId : Nat} {now : Int}
    (h : DBInv db) : DBInv (postBond db b newId now).db := by
  obtain ⟨hs, hb, hc⟩ := h
  cases hval : validateBondCreate now b with
  | some m => rw [postBond, hval]; exact ⟨hs, hb, hc⟩
  | none =>
      rw [postBond, hval]
      obtain ⟨hf, hc0, hc1, ht, hp⟩ := validateBondCreate_sound hval
      refine ⟨hs, ?_, hc⟩
      intro r hrmem
      rcases List.mem_append.mp hrmem with hold | hnew
      · exact hb r hold
      · rw [List.mem_singleton.mp hnew]
        refine ⟨hf, hc0, hc1, ht, hp, fun c hc2 => ?_⟩
        have h3 : some b.purchasePrice = some c := hc2
        rw [← Option.some.inj h3]
        exact hp

lemma postCashflow_inv {db : DB} {b : CashflowCreateBody} {newId : Nat} {now : Int}
    (h : DBInv db) : DBInv (postCashflow db b newId now).db := by
  obtain ⟨hs, hb, hc⟩ := h
  cases hval : validateCashflowCreate b with
  | some m => rw [postCashflow, hval]; exact ⟨hs, hb, hc⟩
  | none =>
      rw [postCashflow, hval]
      obtain ⟨ha, ht⟩ := validateCashflowCreate_sound hval
      refine ⟨hs, hb, ?_⟩
      intro e hemem
      rcases List.mem_append.mp hemem with hold | hnew
      · exact hc e hold
      · rw [List.mem_singleton.mp hnew]
        exact ⟨ha, ht⟩

lemma putStock_inv {db : DB} {i : Nat} {b : StockUpdateBody} {now : Int}
    (h : DBInv db) : DBInv (putStock db i b now).db := by
  obtain ⟨hs, hb, hc⟩ := h
  cases hval : validateStockUpdate b with
  | some m => rw [putStock, hval]; exact ⟨hs, hb, hc⟩
  | none =>
      rw [putStock, hval]
      split_ifs with hex hemp
      · exact ⟨hs, hb, hc⟩
      · refine ⟨?_, hb, hc⟩
        intro s hsmem
        obtain ⟨s0, hs0, rfl⟩ := List.mem_map.mp hsmem
        by_cases hid : s0.id = i
        · rw [if_pos hid]
          exact applyStockUpdate_inv hval (hs s0 hs0)
        · rw [if_neg hid]
          exact hs s0 hs0
      · exact ⟨hs, hb, hc⟩

lemma putBond_inv {db : DB} {i : Nat} {b : BondUpdateBody} {now : Int}
    (h : DBInv db) : DBInv (putBond db i b now).db := by
  obtain ⟨hs, hb, hc⟩ := h
  cases hval : validateBondUpdate b with
  | some m => rw [putBond, hval]; exact ⟨hs, hb, hc⟩
  | none =>
      rw [putBond, hval]
      split_ifs with hex hemp
      · exact ⟨hs, hb, hc⟩
      · refine ⟨hs, ?_, hc⟩
        intro r hrmem
        obtain ⟨r0, hr0, rfl⟩ := List.mem_map.mp hrmem
        by_cases hid : r0.id = i
        · rw [if_pos hid]
          exact applyBondUpdate_inv hval (hb r0 hr0)
        · rw [if_neg hid]
          exact hb r0 hr0
      · exact ⟨hs, hb, hc⟩

lemma putCashflow_inv {db : DB} {i : Nat} {b : CashflowUpdateBody} {now : Int}
    (h : DBInv db) : DBInv (putCashflow db i b now).db := by
  obtain ⟨hs, hb, hc⟩ := h
  cases hval : validateCashflowUpdate b with
  | some m => rw [putCashflow, hval]; exact ⟨hs, hb, hc⟩
  | none =>
      rw [putCashflow, hval]
      split_ifs with hex hemp
      · exact ⟨hs, hb, hc⟩
      · refine ⟨hs, hb, ?_⟩
        intro e hemem
        obtain ⟨e0, he0, rfl⟩ := List.mem_map.mp hemem
        by_cases hid : e0.id = i
        · rw [if_pos hid]
          exact applyCashflowUpdate_inv hval (hc e0 he0)
        · rw [if_neg hid]
          exact hc e0 he0
      · exact ⟨hs, hb, hc⟩

lemma deleteStock_inv {db : DB} {i : Nat} (h : DBInv db) : DBInv (deleteStock db i).db := by
  obtain ⟨hs, hb, hc⟩ := h
  rw [deleteStock]
  split_ifs with hex
  · exact ⟨fun s hsm => hs s (List.mem_filter.mp hsm).1, hb, hc⟩
  · exact ⟨hs, hb, hc⟩

lemma deleteBond_inv {db : DB} {i : Nat} (h : DBInv db) : DBInv (deleteBond db i).db := by
  obtain ⟨hs, hb, hc⟩ := h
  rw [deleteBond]
  split_ifs with hex
  · exact ⟨hs, fun r hrm => hb r (List.mem_filter.mp hrm).1, hc⟩
  · exact ⟨hs, hb, hc⟩

lemma deleteCashflow_inv {db : DB} {i : Nat} (h : DBInv db) :
    DBInv (deleteCashflow db i).db := by
  obtain ⟨hs, hb, hc⟩ := h
  rw [deleteCashflow]
  split_ifs with hex
  · exact ⟨hs, hb, fun e hem => hc e (List.mem_filter.mp hem).1⟩
  · exact ⟨hs, hb, hc⟩

/-- C7: every create or update acceptance respects the data-model invariants
(positive monetary fields, coupon rate in [0, 100], closed bond-type and
cashflow-type enumerations), the invariants are preserved by all nine CRUD
handlers, and a body violating one of these constraints is rejected with 400
without any write. -/
theorem invariants_enforced_and_preserved :
    (∀ (db : DB) (b : StockCreateBody) (newId : Nat) (now : Int),
        DBInv db → DBInv (postStock db b newId now).db) ∧
    (∀ (db : DB) (b : BondCreateBody) (newId : Nat) (now : Int),
        DBInv db → DBInv (postBond db b newId now).db) ∧
    (∀ (db : DB) (b : CashflowCreateBody) (newId : Nat) (now : Int),
        DBInv db → DBInv (postCashflow db b newId now).db) ∧
    (∀ (db : DB) (i : Nat) (b : StockUpdateBody) (now : Int),
        DBInv db → DBInv (putStock db i b now).db) ∧
    (∀ (db : DB) (i : Nat) (b : BondUpdateBody) (now : Int),
        DBInv db → DBInv (putBond db i b now).db) ∧
    (∀ (db : DB) (i : Nat) (b : CashflowUpdateBody) (now : Int),
        DBInv db → DBInv (putCashflow db i b now).db) ∧
    (∀ (db : DB) (i : Nat), DBInv db → DBInv (deleteStock db i).db) ∧
    (∀ (db : DB) (i : Nat), DBInv db → DBInv (deleteBond db i).db) ∧
    (∀ (db : DB) (i : Nat), DBInv db → DBInv (deleteCashflow db i).db) ∧
    (∀ (db : DB) (b : StockCreateBody) (newId : Nat) (now : Int),
        ¬(0 < b.quantity ∧ 0 < b.purchasePrice) →
          (postStock db b newId now).status = 400 ∧ (postStock db b newId now).db = db) ∧
    (∀ (db : DB) (b : BondCreateBody) (newId : Nat) (now : Int),
        ¬(0 < b.faceValue ∧ 0 ≤ b.couponRate ∧ b.couponRate ≤ 100 ∧
            b.bondType ∈ bondTypes ∧ 0 < b.purchasePrice) →
          (postBond db b newId now).status = 400 ∧ (postBond db b newId now).db = db) ∧
    (∀ (db : DB) (b : CashflowCreateBody) (newId : Nat) (now : Int),
        ¬(0 < b.amount ∧ b.type ∈ cashflowTypes) →
          (postCashflow db b newId now).status = 400 ∧
            (postCashflow db b newId now).db = db) ∧
    (∀ (db : DB) (i : Nat) (b : StockUpdateBody) (now : Int),
        ¬((∀ q ∈ b.quantity, 0 < q) ∧ (∀ p ∈ b.purchasePrice, 0 < p) ∧
            (∀ c ∈ b.currentPrice, 0 < c)) →
          (putStock db i b now).status = 400 ∧ (putStock db i b now).db = db) ∧
    (∀ (db : DB) (i : Nat) (b : BondUpdateBody) (now : Int),
        ¬((∀ v ∈ b.faceValue, 0 < v) ∧ (∀ v ∈ b.couponRate, 0 ≤ v ∧ v ≤ 100) ∧
            (∀ v ∈ b.purchasePrice, 0 < v) ∧ (∀ v ∈ b.currentPrice, 0 < v)) →
          (putBond db i b now).status = 400 ∧ (putBond db i b now).db = db) ∧
    (∀ (db : DB) (i : Nat) (b : CashflowUpdateBody) (now : Int),
        ¬(∀ v ∈ b.amount, 0 < v) →
          (putCashflow db i b now).status = 400 ∧ (putCashflow db i b now).db = db) := by
  refine ⟨fun db b newId now => postStock_inv, fun db b newId now => postBond_inv,
    fun db b newId now => postCashflow_inv, fun db i b now => putStock_inv,
    fun db i b now => putBond_inv, fun db i b now => putCashflow_inv,
    fun db i => deleteStock_inv, fun db i => deleteBond_inv,
    fun db i => deleteCashflow_inv, ?_, ?_, ?_, ?_, ?_, ?_⟩
  · intro db b newId now hviol
    cases hval : validateStockCreate b with
    | none => exact absurd (validateStockCreate_sound hval) hviol
    | some m => rw [postStock, hval]; exact ⟨rfl, rfl⟩
  · intro db b newId now hviol
    cases hval : validateBondCreate now b with
    | none =>
        obtain ⟨h1, h2, h3, h4, h5⟩ := validateBondCreate_sound hval
        exact absurd ⟨h1, h2, h3, h4, h5⟩ hviol
    | some m => rw [postBond, hval]; exact ⟨rfl, rfl⟩
  · intro db b newId now hviol
    cases hval : validateCashflowCreate b with
    | none => exact absurd (validateCashflowCreate_sound hval) hviol
    | some m => rw [postCashflow, hval]; exact ⟨rfl, rfl⟩
  · intro db i b now hviol
    cases hval : validateStockUpdate b with
    | none => exact absurd (validateStockUpdate_sound hval) hviol
    | some m => rw [putStock, hval]; exact ⟨rfl, rfl⟩
  · intro db i b now hviol
    cases hval : validateBondUpdate b with
    | none => exact absurd (validateBondUpdate_sound hval) hviol
    | some m => rw [putBond, hval]; exact ⟨rfl, rfl⟩
  · intro db i b now hviol
    cases hval : validateCashflowUpdate b with
    | none => exact absurd (validateCashflowUpdate_sound hval) hviol
    | some m => rw [putCashflow, hval]; exact ⟨rfl, rfl⟩

/-- Witness for `invariants_enforced_and_preserved`: inserting a valid stock
into the empty state preserves the invariant, and a bond body with coupon rate
150 is rejected with 400 leaving the state unchanged. -/
theorem invariants_enforced_and_preserved_witness :
    DBInv ⟨[], [], []⟩ ∧
    DBInv (postStock ⟨[], [], []⟩ ⟨"AAPL", "Apple", 5, 10, 0, none, none⟩ 1 0).db ∧
    ¬(0 < (1000 : Rat) ∧ (0 : Rat) ≤ 150 ∧ (150 : Rat) ≤ 100 ∧
        "corporate" ∈ bondTypes ∧ 0 < (900 : Rat)) ∧
    (postBond ⟨[], [], []⟩ ⟨"ACME", "corporate", 1000, 150, 50, 900, 0, none, none⟩ 1 0).db
      = ⟨[], [], []⟩ :=
  ⟨by simp [DBInv],
   invariants_enforced_and_preserved.1 ⟨[], [], []⟩ ⟨"AAPL", "Apple", 5, 10, 0, none, none⟩
     1 0 (by simp [DBInv]),
   by decide,
   (invariants_enforced_and_preserved.2.2.2.2.2.2.2.2.2.2.1 ⟨[], [], []⟩
      ⟨"ACME", "corporate", 1000, 150, 50, 900, 0, none, none⟩ 1 0 (by decide)).2⟩

/-! ## Creation round-trip, duplicate check, initial current price -/

lemma any_symbol {l : List Stock} {sym : String} :
    l.any (fun s => s.symbol = sym) = true ↔ ∃ s ∈ l, s.symbol = sym := by
  simp [List.any_eq_true]

lemma postStock_created {db : DB} {b : StockCreateBody} {newId : Nat} {now : Int}
    (hv : validateStockCreate b = none)
    (hdup : ¬∃ s ∈ db.stocks, s.symbol = b.symbol) :
    postStock db b newId now =
      ⟨201, "Stock added successfully",
        ⟨db.stocks ++
          [⟨newId, b.symbol, b.companyName, b.quantity, b.purchasePrice,
            some b.purchasePrice, b.purchaseDate, b.sector, b.notes, now⟩],
          db.bonds, db.cashflows⟩,
        some ⟨newId, b.symbol, b.companyName, b.quantity, b.purchasePrice,
          some b.purchasePrice, b.purchaseDate, b.sector, b.notes, now⟩⟩ := by
  rw [postStock, hv, if_neg (fun hc => hdup (any_symbol.mp hc))]

lemma postBond_created {db : DB} {b : BondCreateBody} {newId : Nat} {now : Int}
    (hv : validateBondCreate now b = none) :
    postBond db b newId now =
      ⟨201, "Bond added successfully",
        ⟨db.stocks,
          db.bonds ++
            [⟨newId, b.issuer, b.bondType, b.faceValue, b.couponRate, b.maturityDate,
              b.purchasePrice, some b.purchasePrice, b.purchaseDate, b.rating, b.notes, now⟩],
          db.cashflows⟩,
        some ⟨newId, b.issuer, b.bondType, b.faceValue, b.couponRate, b.maturityDate,
          b.purchasePrice, some b.purchasePrice, b.purchaseDate, b.rating, b.notes, now⟩⟩ := by
  rw [postBond, hv]

/-- C8: a stock created through a schema-valid, non-duplicate POST is returned
by the subsequent GET with the same symbol, company name, quantity, purchase
price, purchase date, sector and notes as supplied. -/
theorem create_then_fetch_same_fields (db : DB) (b : StockCreateBody) (newId : Nat)
    (now : Int) (hv : validateStockCreate b = none)
    (hdup : ¬∃ s ∈ db.stocks, s.symbol = b.symbol) :
    (postStock db b newId now).status = 201 ∧
    ∃ v ∈ getStocks (postStock db b newId now).db,
      v.symbol = b.symbol ∧ v.companyName = b.companyName ∧ v.quantity = b.quantity ∧
        v.purchasePrice = b.purchasePrice ∧ v.purchaseDate = b.purchaseDate ∧
        v.sector = b.sector ∧ v.notes = b.notes := by
  rw [postStock_created hv hdup]
  refine ⟨rfl, stockView ⟨newId, b.symbol, b.companyName, b.quantity, b.purchasePrice,
    some b.purchasePrice, b.purchaseDate, b.sector, b.notes, now⟩, ?_, rfl, rfl, rfl, rfl,
    rfl, rfl, rfl⟩
  exact List.mem_map.mpr
    ⟨_, List.mem_append.mpr (Or.inr (List.mem_singleton.mpr rfl)), rfl⟩

/-- Witness for `create_then_fetch_same_fields` at the empty state. -/
theorem create_then_fetch_same_fields_witness :
    validateStockCreate ⟨"AAPL", "Apple", 5, 10, 3, some "Tech", none⟩ = none ∧
    (postStock ⟨[], [], []⟩ ⟨"AAPL", "Apple", 5, 10, 3, some "Tech", none⟩ 1 0).status
      = 201 :=
  ⟨by decide,
   (create_then_fetch_same_fields ⟨[], [], []⟩ ⟨"AAPL", "Apple", 5, 10, 3, some "Tech", none⟩
      1 0 (by decide) (by decide)).1⟩

/-- Counterexample to C9 as stated: a POST whose symbol already has a row but
whose body fails validation (here a negative quantity) is answered with the
validation message, not with `Stock already exists in portfolio`. -/
theorem duplicate_symbol_message_counterexample :
    (∃ s ∈ (⟨[⟨1, "AAPL", "Apple", 5, 10, none, 0, none, none, 0⟩], [], []⟩ : DB).stocks,
        s.symbol = "AAPL") ∧
    (postStock ⟨[⟨1, "AAPL", "Apple", 5, 10, none, 0, none, none, 0⟩], [], []⟩
        ⟨"AAPL", "Apple", -1, 10, 0, none, none⟩ 2 0).message
      ≠ "Stock already exists in portfolio" := by
  exact ⟨⟨⟨1, "AAPL", "Apple", 5, 10, none, 0, none, none, 0⟩, by decide, rfl⟩, by decide⟩

/-- C9 (amended to schema-valid requests): a schema-valid POST whose symbol
already has a row is rejected with 400 and the message
`Stock already exists in portfolio`, and no row is inserted; consequently
distinctness of symbols is preserved by every POST. -/
theorem duplicate_symbol_rejected :
    (∀ (db : DB) (b : StockCreateBody) (newId : Nat) (now : Int),
      validateStockCreate b = none → (∃ s ∈ db.stocks, s.symbol = b.symbol) →
        postStock db b newId now = ⟨400, "Stock already exists in portfolio", db, none⟩) ∧
    (∀ (db : DB) (b : StockCreateBody) (newId : Nat) (now : Int),
      db.stocks.Pairwise (fun a c => a.symbol ≠ c.symbol) →
        (postStock db b newId now).db.stocks.Pairwise (fun a c => a.symbol ≠ c.symbol)) := by
  constructor
  · intro db b newId now hv hdup
    rw [postStock, hv, if_pos (any_symbol.mpr hdup)]
  · intro db b newId now hpw
    cases hval : validateStockCreate b with
    | some m => rw [postStock, hval]; exact hpw
    | none =>
        rw [postStock, hval]
        split_ifs with hdup
        · exact hpw
        · refine List.pairwise_append.mpr ⟨hpw, List.pairwise_singleton _ _, ?_⟩
          intro a ha c hc
          rw [List.mem_singleton.mp hc]
          intro hsym
          exact hdup (any_symbol.mpr ⟨a, ha, hsym⟩)

/-- Witness for `duplicate_symbol_rejected`: a second valid POST of symbol
`AAPL` is answered 400 with the duplicate message and leaves the state
unchanged. -/
theorem duplicate_symbol_rejected_witness :
    validateStockCreate ⟨"AAPL", "Apple", 5, 10, 0, none, none⟩ = none ∧
    postStock ⟨[⟨1, "AAPL", "Apple", 5, 10, none, 0, none, none, 0⟩], [], []⟩
        ⟨"AAPL", "Apple", 5, 10, 0, none, none⟩ 2 0
      = ⟨400, "Stock already exists in portfolio",
          ⟨[⟨1, "AAPL", "Apple", 5, 10, none, 0, none, none, 0⟩], [], []⟩, none⟩ :=
  ⟨by decide,
   duplicate_symbol_rejected.1
     ⟨[⟨1, "AAPL", "Apple", 5, 10, none, 0, none, none, 0⟩], [], []⟩
     ⟨"AAPL", "Apple", 5, 10, 0, none, none⟩ 2 0 (by decide)
     ⟨⟨1, "AAPL", "Apple", 5, 10, none, 0, none, none, 0⟩, by decide, rfl⟩⟩

/-- C10: a freshly created stock or bond stores the purchase price as its
current price, so its GET record shows current price equal to purchase price,
zero unrealized gain/loss (resp. zero gain/loss) and zero percentage change. -/
theorem new_holding_has_zero_gain (db : DB) (b : StockCreateBody) (newId : Nat) (now : Int)
    (db2 : DB) (bb : BondCreateBody) (newId2 : Nat) (now2 : Int) (today : Int)
    (hv : validateStockCreate b = none) (hdup : ¬∃ s ∈ db.stocks, s.symbol = b.symbol)
    (hv2 : validateBondCreate now2 bb = none) :
    (∀ s, (postStock db b newId now).row = some s →
      s.currentPrice = some s.purchasePrice ∧
      (stockView s).currentPrice = (stockView s).purchasePrice ∧
      (stockView s).unrealizedGainLoss = 0 ∧
      (stockView s).percentageChange = 0 ∧
      stockView s ∈ getStocks (postStock db b newId now).db) ∧
    (∀ r, (postBond db2 bb newId2 now2).row = some r →
      r.currentPrice = some r.purchasePrice ∧
      (bondView today r).currentPrice = (bondView today r).purchasePrice ∧
      (bondView today r).gainLoss = 0 ∧
      bondView today r ∈ getBonds (postBond db2 bb newId2 now2).db today) := by
  constructor
  · intro s hrow
    rw [postStock_created hv hdup] at hrow ⊢
    have hs := Option.some.inj hrow
    rw [← hs]
    refine ⟨rfl, ?_, ?_, ?_, ?_⟩
    · simp [stockView, Stock.effPrice]
    · simp [stockView, Stock.effPrice]
    · simp [stockView, Stock.effPrice]
    · exact List.mem_map.mpr
        ⟨_, List.mem_append.mpr (Or.inr (List.mem_singleton.mpr rfl)), rfl⟩
  · intro r hrow
    rw [postBond_created hv2] at hrow ⊢
    have hr := Option.some.inj hrow
    rw [← hr]
    refine ⟨rfl, ?_, ?_, ?_⟩
    · simp [bondView, Bond.effPrice]
    · simp [bondView, Bond.effPrice]
    · exact List.mem_map.mpr
        ⟨_, List.mem_append.mpr (Or.inr (List.mem_singleton.mpr rfl)), rfl⟩

/-- Witness for `new_holding_has_zero_gain`: the stock created by a valid POST
carries `currentPrice = some purchasePrice` and zero gain in its GET record. -/
theorem new_holding_has_zero_gain_witness :
    validateStockCreate ⟨"AAPL", "Apple", 5, 10, 0, none, none⟩ = none ∧
    validateBondCreate 0 ⟨"ACME", "corporate", 1000, 5, 50, 900, 0, none, none⟩ = none ∧
    (⟨1, "AAPL", "Apple", 5, 10, some 10, 0, none, none, 0⟩ : Stock).currentPrice
      = some (⟨1, "AAPL", "Apple", 5, 10, some 10, 0, none, none, 0⟩ : Stock).purchasePrice ∧
    (stockView ⟨1, "AAPL", "Apple", 5, 10, some 10, 0, none, none, 0⟩).unrealizedGainLoss
      = 0 ∧
    (stockView ⟨1, "AAPL", "Apple", 5, 10, some 10, 0, none, none, 0⟩).percentageChange
      = 0 :=
  have h := (new_holding_has_zero_gain ⟨[], [], []⟩ ⟨"AAPL", "Apple", 5, 10, 0, none, none⟩
      1 0 ⟨[], [], []⟩ ⟨"ACME", "corporate", 1000, 5, 50, 900, 0, none, none⟩ 1 0 0
      (by decide) (by decide) (by decide)).1
      ⟨1, "AAPL", "Apple", 5, 10, some 10, 0, none, none, 0⟩ (by decide)
  ⟨by decide, by decide, h.1, h.2.2.1, h.2.2.2.1⟩

end PortfolioS
